import Mathlib

/-!
Verification of the mapflight repository: great-circle geodesy
(`src/js/utils.js`) and the screenshot capture pipeline
(`automation/capture.js`, `automation/capture-simple.js`).

The geodesic functions are embedded over the real numbers (JavaScript's
double-precision trigonometry is idealised as exact real arithmetic).
The capture pipeline is embedded as a functional model over an explicit
state carrying the browser/page handles, the set of written files and a
chronological event trace; a per-attempt outcome parameter says at which
awaited step (if any) the attempt throws.
-/

namespace Geo

noncomputable section

open Real

/-- From utils.js: `degrees * (Math.PI / 180)`. -/
def degreesToRadians (degrees : ℝ) : ℝ := degrees * (π / 180)

/-- From utils.js: `radians * (180 / Math.PI)`. -/
def radiansToDegrees (radians : ℝ) : ℝ := radians * (180 / π)

/-- JavaScript `Math.atan2(y, x)`, embedded as the argument of the complex
number `x + y i`.  Like `Math.atan2`, it takes values in `(-π, π]` and
returns `0` at the origin. -/
def atan2 (y x : ℝ) : ℝ := Complex.arg ⟨x, y⟩

/-- From utils.js `calculateGreatCircleDistance(point1, point2, earthRadius)`:
haversine great-circle distance.  Points are `[longitude, latitude]` pairs
in degrees. -/
def calculateGreatCircleDistance (point1 point2 : ℝ × ℝ)
    (earthRadius : ℝ := 6371) : ℝ :=
  let dLat := degreesToRadians (point2.2 - point1.2)
  let dLon := degreesToRadians (point2.1 - point1.1)
  let a := sin (dLat / 2) * sin (dLat / 2) +
    cos (degreesToRadians point1.2) * cos (degreesToRadians point2.2) *
    (sin (dLon / 2) * sin (dLon / 2))
  let c := 2 * atan2 (sqrt a) (sqrt (1 - a))
  earthRadius * c

/-- The angular separation `d` computed inside
`calculateIntermediatePoint` in utils.js:
`2 * Math.asin(Math.sqrt(sin²((lat2-lat1)/2) + cos lat1 · cos lat2 · sin²((lon2-lon1)/2)))`. -/
def havSeparation (startPoint endPoint : ℝ × ℝ) : ℝ :=
  let lat1Rad := degreesToRadians startPoint.2
  let lon1Rad := degreesToRadians startPoint.1
  let lat2Rad := degreesToRadians endPoint.2
  let lon2Rad := degreesToRadians endPoint.1
  2 * arcsin (sqrt (sin ((lat2Rad - lat1Rad) / 2) ^ 2 +
    cos lat1Rad * cos lat2Rad * sin ((lon2Rad - lon1Rad) / 2) ^ 2))

open Classical in
/-- From utils.js `calculateIntermediatePoint(startPoint, endPoint, fraction)`:
spherical interpolation along the great circle.  If the angular separation
`d` is zero the start point is returned unchanged (guarding the division
by `sin d`); otherwise the interpolated 3-vector is built and converted
back to degrees via `atan2`. -/
def calculateIntermediatePoint (startPoint endPoint : ℝ × ℝ)
    (fraction : ℝ) : ℝ × ℝ :=
  let lat1Rad := degreesToRadians startPoint.2
  let lon1Rad := degreesToRadians startPoint.1
  let lat2Rad := degreesToRadians endPoint.2
  let lon2Rad := degreesToRadians endPoint.1
  let d := havSeparation startPoint endPoint
  if d = 0 then startPoint else
  let A := sin ((1 - fraction) * d) / sin d
  let B := sin (fraction * d) / sin d
  let x := A * cos lat1Rad * cos lon1Rad + B * cos lat2Rad * cos lon2Rad
  let y := A * cos lat1Rad * sin lon1Rad + B * cos lat2Rad * sin lon2Rad
  let z := A * sin lat1Rad + B * sin lat2Rad
  let lat := atan2 z (sqrt (x * x + y * y))
  let lon := atan2 y x
  (radiansToDegrees lon, radiansToDegrees lat)

/-- From utils.js `calculateAircraftPosition(startPoint, endPoint,
timeFromStart, totalFlightTime)`. -/
def calculateAircraftPosition (startPoint endPoint : ℝ × ℝ)
    (timeFromStart totalFlightTime : ℝ) : ℝ × ℝ :=
  calculateIntermediatePoint startPoint endPoint
    (timeFromStart / totalFlightTime)

/-- Unit vector on the sphere for a longitude/latitude pair given in
radians (analysis helper, not part of the source). -/
def unitVecRad (lon lat : ℝ) : ℝ × ℝ × ℝ :=
  (cos lat * cos lon, cos lat * sin lon, sin lat)

/-- Unit vector on the sphere for a `[longitude, latitude]` pair in
degrees (analysis helper, not part of the source). -/
def unitVec (p : ℝ × ℝ) : ℝ × ℝ × ℝ :=
  unitVecRad (degreesToRadians p.1) (degreesToRadians p.2)

/-- Euclidean dot product on `ℝ³` (analysis helper). -/
def dot3 (u v : ℝ × ℝ × ℝ) : ℝ :=
  u.1 * v.1 + u.2.1 * v.2.1 + u.2.2 * v.2.2

/-- A point is a valid GeoPoint when its longitude lies in `[-180, 180]`
and its latitude in `[-90, 90]` (spec §3). -/
def isValidGeoPoint (p : ℝ × ℝ) : Prop :=
  -180 ≤ p.1 ∧ p.1 ≤ 180 ∧ -90 ≤ p.2 ∧ p.2 ≤ 90

/-- Componentwise scalar multiple on `ℝ³` (analysis helper). -/
def smul3 (c : ℝ) (u : ℝ × ℝ × ℝ) : ℝ × ℝ × ℝ :=
  (c * u.1, c * u.2.1, c * u.2.2)

/-- Componentwise addition on `ℝ³` (analysis helper). -/
def add3 (u v : ℝ × ℝ × ℝ) : ℝ × ℝ × ℝ :=
  (u.1 + v.1, u.2.1 + v.2.1, u.2.2 + v.2.2)

end

end Geo

namespace MapReady

/-- The five readiness conditions checked in one poll of
`waitForMapReady` (capture.js): map container present, Mapbox GL loaded,
`flightPathMap` initialised, a live map instance, and visible map
content. -/
structure Checks where
  hasMapContainer : Bool
  hasMapboxGL : Bool
  hasFlightPathMap : Bool
  hasMapInstance : Bool
  hasMapContent : Bool
deriving DecidableEq

/-- The conjunction tested by a single poll:
`mapContainer && hasMapboxGL && hasFlightPathMap && hasMapInstance && hasMapContent`. -/
def allReady (c : Checks) : Bool :=
  c.hasMapContainer && c.hasMapboxGL && c.hasFlightPathMap &&
    c.hasMapInstance && c.hasMapContent

/-- The 30 s rejection timer of the readiness promise. -/
def timeoutMs : ℕ := 30000

/-- The 1000 ms `setTimeout(checkMap, 1000)` repoll interval. -/
def pollIntervalMs : ℕ := 1000

/-- The `checkMap` polling loop of `waitForMapReady`, polling the
environment `env` (readiness flags as a function of elapsed ms) at time
`t`, `t + 1000`, …  The first argument counts the polls that can still
run before the promise's 30 s rejection timer fires; it is
`timeoutMs / pollIntervalMs` at the start (the rejection timer was
registered before any repoll timer, so it wins the tie at exactly
`t = timeoutMs`, and polls happen at `t = 0 … 29000`).  The error value
records the time (ms) at which the rejection fires. -/
def checkMapAux (env : ℕ → Checks) : ℕ → ℕ → Except ℕ ℕ
  | 0, _ => Except.error timeoutMs
  | n + 1, t =>
    if allReady (env t) then Except.ok t
    else checkMapAux env n (t + pollIntervalMs)

/-- `waitForMapReady`'s readiness promise (capture.js, dev-server
variant): first poll immediately, then every second, rejected at 30 s. -/
def waitForMapReady (env : ℕ → Checks) : Except ℕ ℕ :=
  checkMapAux env (timeoutMs / pollIntervalMs) 0

/-- Test environment: everything but map content ready from the start,
content present from 3000 ms on. -/
def readyAfterThreePolls : ℕ → Checks := fun t =>
  ⟨true, true, true, true, decide (3000 ≤ t)⟩

/-- Test environment in which every conjunct is satisfied at some poll
but never all at the same poll: `flightPathMap` is only seen on even
seconds and the map instance only on odd seconds. -/
def alternatingChecks : ℕ → Checks := fun t =>
  ⟨true, true, decide (t % 2000 = 0), decide (t % 2000 ≠ 0), true⟩

end MapReady

namespace Capture

/-- Observable events of a capture run, in chronological order: browser
and page handles opened/closed (handles are numbered by a fresh-id
counter), the start of a capture attempt, page navigation, UI-chrome
hiding, output-directory creation, and a screenshot file written with
the page's viewport dimensions. -/
inductive Ev
  | openBrowser (id : ℕ)
  | openPage (id : ℕ)
  | closeBrowser (id : ℕ)
  | closePage (id : ℕ)
  | attemptStart (n : ℕ)
  | navigate
  | hideUI
  | ensureDir
  | write (path : String) (width height : ℕ)
deriving DecidableEq

/-- State of a `ScreenshotCapture` instance plus its environment: the
fresh-handle counter, the `this.browser` and `this.page` fields, the
page viewport, the files present in the screenshot directory, and the
event trace. -/
structure St where
  nextId : ℕ
  browser : Option ℕ
  page : Option ℕ
  viewportW : ℕ
  viewportH : ℕ
  files : List String
  trace : List Ev
deriving DecidableEq

/-- The state before `main` runs: no handles, no files. -/
def initSt : St := ⟨0, none, none, 0, 0, [], []⟩

/-- `this.screenshotDir = path.join(__dirname, '../src/screenshots')`. -/
def screenshotDir : String := "../src/screenshots"

/-- `path.join(this.screenshotDir, name)` for a file name. -/
def screenshotPath (name : String) : String := screenshotDir ++ "/" ++ name

/-- Which awaited step of one attempt throws, if any, together with the
error value thrown (errors are modelled as numbers).  `failLaunch`:
`puppeteer.launch` throws; `failNewPage`: `browser.newPage` throws after
the browser opened; `failNavigate`: `page.goto`/`waitForMapReady`
throws; `failOverview`: the overview step throws before its screenshot
is written; `failZoom`: the zoom step throws after the overview file was
already written. -/
inductive AttemptSpec
  | failLaunch (e : ℕ)
  | failNewPage (e : ℕ)
  | failNavigate (e : ℕ)
  | failOverview (e : ℕ)
  | failZoom (e : ℕ)
  | ok
deriving DecidableEq

/-- Does this attempt outcome throw? -/
def AttemptSpec.isFailure : AttemptSpec → Bool
  | .ok => false
  | _ => true

/-- The error value thrown by a failing attempt (0 for `ok`, unused). -/
def AttemptSpec.errOf : AttemptSpec → ℕ
  | .failLaunch e => e
  | .failNewPage e => e
  | .failNavigate e => e
  | .failOverview e => e
  | .failZoom e => e
  | .ok => 0

/-- The value returned by a successful `captureAllScreenshots` run in
capture.js: `{ overview: overviewPath, zoom: zoomPath }`. -/
structure CaptureResults where
  overview : String
  zoom : String
deriving DecidableEq

/-- `SCREENSHOT_CONFIG.maxRetries`. -/
def maxRetries : ℕ := 3

/-- `initialize()` (capture.js): launch the browser, open a page, set
the fixed 1080×1920 portrait viewport.  Either of the first two awaits
may throw per the attempt spec; a launch failure leaves `this.browser`
unassigned, a `newPage` failure leaves the browser open with no page. -/
def initBrowser (a : AttemptSpec) (s : St) : St × Option ℕ :=
  match a with
  | .failLaunch e => (s, some e)
  | .failNewPage e =>
    ({ s with
        nextId := s.nextId + 1
        browser := some s.nextId
        trace := s.trace ++ [Ev.openBrowser s.nextId] }, some e)
  | _ =>
    let s1 : St :=
      { s with
        nextId := s.nextId + 1
        browser := some s.nextId
        trace := s.trace ++ [Ev.openBrowser s.nextId] }
    let s2 : St :=
      { s1 with
        nextId := s1.nextId + 1
        page := some s1.nextId
        viewportW := 1080
        viewportH := 1920
        trace := s1.trace ++ [Ev.openPage s1.nextId] }
    (s2, none)

/-- `navigateToMap()` (capture.js): `page.goto` plus `waitForMapReady`;
throws `NavigationError`/`RenderTimeoutError` per the attempt spec. -/
def navigateToMap (a : AttemptSpec) (s : St) : St × Option ℕ :=
  match a with
  | .failNavigate e => (s, some e)
  | _ => ({ s with trace := s.trace ++ [Ev.navigate] }, none)

/-- `ensureScreenshotDirectory()`: `fs.access`, and `fs.mkdir` with
`recursive: true` when missing — an idempotent create-if-missing. -/
def ensureScreenshotDirectory (s : St) : St :=
  { s with trace := s.trace ++ [Ev.ensureDir] }

/-- `captureOverview()` (capture.js): set the overview view, wait,
ensure the output directory, then `page.screenshot` (viewport-sized,
`fullPage: false`) to `overview.png`.  capture.js has no UI-hiding
step.  On success the file exists and the path is returned. -/
def captureOverview (a : AttemptSpec) (s : St) : St × Except ℕ String :=
  match a with
  | .failOverview e => (s, Except.error e)
  | _ =>
    let s1 := ensureScreenshotDirectory s
    ({ s1 with
        files := s1.files ++ [screenshotPath "overview.png"]
        trace := s1.trace ++
          [Ev.write (screenshotPath "overview.png") s1.viewportW s1.viewportH] },
     Except.ok (screenshotPath "overview.png"))

/-- `captureZoom()` (capture.js): like `captureOverview` but for the
zoom view and `zoom.png`. -/
def captureZoom (a : AttemptSpec) (s : St) : St × Except ℕ String :=
  match a with
  | .failZoom e => (s, Except.error e)
  | _ =>
    let s1 := ensureScreenshotDirectory s
    ({ s1 with
        files := s1.files ++ [screenshotPath "zoom.png"]
        trace := s1.trace ++
          [Ev.write (screenshotPath "zoom.png") s1.viewportW s1.viewportH] },
     Except.ok (screenshotPath "zoom.png"))

/-- The body of one iteration of `captureAllScreenshots`'s while-loop:
initialize, navigate, capture overview, capture zoom, in that order,
aborting at the first step that throws.  `n` is the 1-based attempt
number logged at the top of the iteration. -/
def runAttempt (a : AttemptSpec) (n : ℕ) (s : St) :
    St × Except ℕ CaptureResults :=
  let s0 : St := { s with trace := s.trace ++ [Ev.attemptStart n] }
  match initBrowser a s0 with
  | (s1, some e) => (s1, Except.error e)
  | (s1, none) =>
    match navigateToMap a s1 with
    | (s2, some e) => (s2, Except.error e)
    | (s2, none) =>
      match captureOverview a s2 with
      | (s3, Except.error e) => (s3, Except.error e)
      | (s3, Except.ok ov) =>
        match captureZoom a s3 with
        | (s4, Except.error e) => (s4, Except.error e)
        | (s4, Except.ok zm) => (s4, Except.ok ⟨ov, zm⟩)

/-- `cleanup()` (capture.js): close the page if set and null the field,
then close the browser if set and null the field.  Because the fields
are nulled, a second `cleanup` is a no-op on the same handles. -/
def cleanup (s : St) : St :=
  let s1 : St :=
    match s.page with
    | some pid =>
      { s with page := none, trace := s.trace ++ [Ev.closePage pid] }
    | none => s
  match s1.browser with
  | some bid =>
    { s1 with browser := none, trace := s1.trace ++ [Ev.closeBrowser bid] }
  | none => s1

/-- `captureAllScreenshots()` (capture.js): the retry while-loop with
its mutable `retries` counter.  `specs i` says how the attempt with
`retries = i` behaves.  The first argument is structural fuel bounding
the number of iterations; the real exit condition is the source's guard
`retries < maxRetries`, and since `retries` starts at `0` and is
incremented once per iteration, `maxRetries` fuel is enough for every
reachable call.  On success the loop returns the two paths immediately;
on failure it cleans up and retries while `retries + 1 < maxRetries`,
and rethrows the last error otherwise.  `none` models the loop's
(unreachable) plain fall-through, which returns `undefined`. -/
def captureLoop (specs : ℕ → AttemptSpec) :
    ℕ → ℕ → St → St × Option (Except ℕ CaptureResults)
  | 0, _, s => (s, none)
  | fuel + 1, retries, s =>
    if retries < maxRetries then
      match runAttempt (specs retries) (retries + 1) s with
      | (s1, Except.ok r) => (s1, some (Except.ok r))
      | (s1, Except.error e) =>
        if retries + 1 < maxRetries then
          captureLoop specs fuel (retries + 1) (cleanup s1)
        else (s1, some (Except.error e))
    else (s, none)

/-- `captureAllScreenshots()` entry point: `retries` starts at 0. -/
def captureAllScreenshots (specs : ℕ → AttemptSpec) (s : St) :
    St × Option (Except ℕ CaptureResults) :=
  captureLoop specs maxRetries 0 s

/-- `main()` (capture.js): run `captureAllScreenshots` and always run
`cleanup()` in the `finally` block. -/
def mainRun (specs : ℕ → AttemptSpec) :
    St × Option (Except ℕ CaptureResults) :=
  let r := captureAllScreenshots specs initSt
  (cleanup r.1, r.2)

/-- Is this event the start of an attempt? -/
def isAttemptEv : Ev → Bool
  | .attemptStart _ => true
  | _ => false

/-- Number of capture attempts recorded in a trace. -/
def attemptCount (tr : List Ev) : ℕ := tr.countP isAttemptEv

/-- Does this event open handle `id` (browser or page)? -/
def opensOf (id : ℕ) : Ev → Bool
  | .openBrowser i => i == id
  | .openPage i => i == id
  | _ => false

/-- Does this event close handle `id` (browser or page)? -/
def closesOf (id : ℕ) : Ev → Bool
  | .closeBrowser i => i == id
  | .closePage i => i == id
  | _ => false

/-- Is this event a screenshot write? -/
def isWriteEv : Ev → Bool
  | .write _ _ _ => true
  | _ => false

/-- Is this event the hiding of the map UI chrome? -/
def isHideEv : Ev → Bool
  | .hideUI => true
  | _ => false

end Capture

namespace CaptureSimple

open Capture

/-- `captureOverview()` (capture-simple.js): wait for readiness, set
the overview view, wait again, `hideMapUI()` (hide all
`.mapboxgl-ctrl` controls and the attribution), ensure the output
directory, then screenshot `overview.png` at the page viewport. -/
def captureOverview (a : AttemptSpec) (s : St) : St × Except ℕ String :=
  match a with
  | AttemptSpec.failOverview e => (s, Except.error e)
  | _ =>
    let s1 : St := { s with trace := s.trace ++ [Ev.hideUI] }
    let s2 := Capture.ensureScreenshotDirectory s1
    ({ s2 with
        files := s2.files ++ [screenshotPath "overview.png"]
        trace := s2.trace ++
          [Ev.write (screenshotPath "overview.png") s2.viewportW s2.viewportH] },
     Except.ok (screenshotPath "overview.png"))

/-- `captureZoom()` (capture-simple.js): wait for readiness, set the
zoom view, wait, `hideMapUI()`, ensure the directory, screenshot
`zoom.png`. -/
def captureZoom (a : AttemptSpec) (s : St) : St × Except ℕ String :=
  match a with
  | AttemptSpec.failZoom e => (s, Except.error e)
  | _ =>
    let s1 : St := { s with trace := s.trace ++ [Ev.hideUI] }
    let s2 := Capture.ensureScreenshotDirectory s1
    ({ s2 with
        files := s2.files ++ [screenshotPath "zoom.png"]
        trace := s2.trace ++
          [Ev.write (screenshotPath "zoom.png") s2.viewportW s2.viewportH] },
     Except.ok (screenshotPath "zoom.png"))

/-- One iteration body of capture-simple.js's retry loop: its
`initialize()` and `navigateToMap()` have the same observable shape as
capture.js's (launch, new page, 1080×1920 viewport; navigate), so those
step models are shared.  The loop discards the returned paths. -/
def runAttempt (a : AttemptSpec) (n : ℕ) (s : St) : St × Except ℕ Unit :=
  let s0 : St := { s with trace := s.trace ++ [Ev.attemptStart n] }
  match Capture.initBrowser a s0 with
  | (s1, some e) => (s1, Except.error e)
  | (s1, none) =>
    match Capture.navigateToMap a s1 with
    | (s2, some e) => (s2, Except.error e)
    | (s2, none) =>
      match captureOverview a s2 with
      | (s3, Except.error e) => (s3, Except.error e)
      | (s3, Except.ok _) =>
        match captureZoom a s3 with
        | (s4, Except.error e) => (s4, Except.error e)
        | (s4, Except.ok _) => (s4, Except.ok ())

/-- `cleanup()` (capture-simple.js): closes the browser if set — and,
unlike capture.js, does not null `this.browser` and never closes the
page separately. -/
def cleanup (s : St) : St :=
  match s.browser with
  | some bid => { s with trace := s.trace ++ [Ev.closeBrowser bid] }
  | none => s

/-- Errors surfaced by capture-simple.js's `captureAllScreenshots`: an
underlying step error (these are only logged, never rethrown) or the
generic `Error('All screenshot capture attempts failed')` thrown after
the loop. -/
inductive SimpleErr
  | underlying (e : ℕ)
  | allAttemptsFailed
deriving DecidableEq

/-- `captureAllScreenshots()` (capture-simple.js): the while-loop.  On
success it returns `true`; a failing attempt only increments `retries`
(cleaning up and sleeping when more attempts remain); when the loop
exhausts its budget, the function throws the generic
'All screenshot capture attempts failed' error — not the last
underlying error.  Structural fuel as in `Capture.captureLoop`. -/
def captureLoop (specs : ℕ → AttemptSpec) :
    ℕ → ℕ → St → St × Except SimpleErr Bool
  | 0, _, s => (s, Except.error SimpleErr.allAttemptsFailed)
  | fuel + 1, retries, s =>
    if retries < maxRetries then
      match runAttempt (specs retries) (retries + 1) s with
      | (s1, Except.ok _) => (s1, Except.ok true)
      | (s1, Except.error _) =>
        if retries + 1 < maxRetries then
          captureLoop specs fuel (retries + 1) (cleanup s1)
        else (s1, Except.error SimpleErr.allAttemptsFailed)
    else (s, Except.error SimpleErr.allAttemptsFailed)

/-- `captureAllScreenshots()` entry point (capture-simple.js). -/
def captureAllScreenshots (specs : ℕ → AttemptSpec) (s : St) :
    St × Except SimpleErr Bool :=
  captureLoop specs maxRetries 0 s

end CaptureSimple

namespace Geo

open Real

lemma unitVec_norm (p : ℝ × ℝ) : dot3 (unitVec p) (unitVec p) = 1 := by
  have h1 := Real.sin_sq_add_cos_sq (degreesToRadians p.1)
  have h2 := Real.sin_sq_add_cos_sq (degreesToRadians p.2)
  simp only [unitVec, unitVecRad, dot3]
  nlinarith [h1, h2]

/-- The haversine argument equals `(1 - u·v)/2` for the two unit
vectors: a pure trigonometric identity. -/
lemma hav_arg_eq (p q : ℝ × ℝ) :
    sin ((degreesToRadians q.2 - degreesToRadians p.2) / 2) ^ 2 +
      cos (degreesToRadians p.2) * cos (degreesToRadians q.2) *
        sin ((degreesToRadians q.1 - degreesToRadians p.1) / 2) ^ 2 =
    (1 - dot3 (unitVec p) (unitVec q)) / 2 := by
  set f1 := degreesToRadians p.2
  set f2 := degreesToRadians q.2
  set l1 := degreesToRadians p.1
  set l2 := degreesToRadians q.1
  have hs1 : sin ((f2 - f1) / 2) ^ 2 = (1 - cos (f2 - f1)) / 2 := by
    have h := Real.sin_sq_eq_half_sub ((f2 - f1) / 2)
    rw [h]; ring_nf
  have hs2 : sin ((l2 - l1) / 2) ^ 2 = (1 - cos (l2 - l1)) / 2 := by
    have h := Real.sin_sq_eq_half_sub ((l2 - l1) / 2)
    rw [h]; ring_nf
  rw [hs1, hs2, Real.cos_sub, Real.cos_sub]
  simp only [unitVec, unitVecRad, dot3]
  ring

lemma dot3_le_one {u v : ℝ × ℝ × ℝ} (hu : dot3 u u = 1) (hv : dot3 v v = 1) :
    dot3 u v ≤ 1 := by
  simp only [dot3] at *
  nlinarith [sq_nonneg (u.1 - v.1), sq_nonneg (u.2.1 - v.2.1),
    sq_nonneg (u.2.2 - v.2.2)]

lemma neg_one_le_dot3 {u v : ℝ × ℝ × ℝ} (hu : dot3 u u = 1)
    (hv : dot3 v v = 1) : -1 ≤ dot3 u v := by
  simp only [dot3] at *
  nlinarith [sq_nonneg (u.1 + v.1), sq_nonneg (u.2.1 + v.2.1),
    sq_nonneg (u.2.2 + v.2.2)]

lemma dot3_eq_one_iff_aux {u v : ℝ × ℝ × ℝ} (hu : dot3 u u = 1)
    (hv : dot3 v v = 1) (h : dot3 u v = 1) : u = v := by
  simp only [dot3] at *
  have h1 : (u.1 - v.1) ^ 2 = 0 := by nlinarith [sq_nonneg (u.2.1 - v.2.1), sq_nonneg (u.2.2 - v.2.2)]
  have h2 : (u.2.1 - v.2.1) ^ 2 = 0 := by nlinarith [sq_nonneg (u.1 - v.1), sq_nonneg (u.2.2 - v.2.2)]
  have h3 : (u.2.2 - v.2.2) ^ 2 = 0 := by nlinarith [sq_nonneg (u.1 - v.1), sq_nonneg (u.2.1 - v.2.1)]
  have e1 : u.1 = v.1 := by nlinarith [h1]
  have e2 : u.2.1 = v.2.1 := by nlinarith [h2]
  have e3 : u.2.2 = v.2.2 := by nlinarith [h3]
  exact Prod.ext e1 (Prod.ext e2 e3)

/-- The separation computed by the source equals the central angle
`arccos (u·v)` of the two unit vectors. -/
lemma havSeparation_eq_arccos (p q : ℝ × ℝ) :
    havSeparation p q = arccos (dot3 (unitVec p) (unitVec q)) := by
  have hdot_le := dot3_le_one (unitVec_norm p) (unitVec_norm q)
  have hdot_ge := neg_one_le_dot3 (unitVec_norm p) (unitVec_norm q)
  have harg := hav_arg_eq p q
  simp only [havSeparation]
  rw [harg]
  have hc : (1 - dot3 (unitVec p) (unitVec q)) / 2 =
      (1 - cos (arccos (dot3 (unitVec p) (unitVec q)))) / 2 := by
    rw [Real.cos_arccos hdot_ge hdot_le]
  rw [hc, ← Real.abs_sin_half]
  have hnn : 0 ≤ sin (arccos (dot3 (unitVec p) (unitVec q)) / 2) := by
    apply Real.sin_nonneg_of_nonneg_of_le_pi
    · have h := Real.arccos_nonneg (dot3 (unitVec p) (unitVec q))
      linarith
    · have h := Real.arccos_le_pi (dot3 (unitVec p) (unitVec q))
      linarith [Real.pi_pos]
  rw [abs_of_nonneg hnn, Real.arcsin_sin]
  · ring
  · have h := Real.arccos_nonneg (dot3 (unitVec p) (unitVec q))
    linarith [Real.pi_pos]
  · have h := Real.arccos_le_pi (dot3 (unitVec p) (unitVec q))
    linarith [Real.pi_pos]

lemma atan2_cos_sin {θ : ℝ} (hθ : θ ∈ Set.Ioc (-π) π) :
    atan2 (sin θ) (cos θ) = θ := by
  unfold atan2
  rw [Complex.mk_eq_add_mul_I, Complex.ofReal_cos, Complex.ofReal_sin]
  exact Complex.arg_cos_add_sin_mul_I hθ

lemma neg_pi_lt_atan2 (y x : ℝ) : -π < atan2 y x := Complex.neg_pi_lt_arg _

lemma atan2_le_pi (y x : ℝ) : atan2 y x ≤ π := Complex.arg_le_pi _

lemma abs_atan2_le_half_pi {y x : ℝ} (hx : 0 ≤ x) : |atan2 y x| ≤ π / 2 :=
  Complex.abs_arg_le_pi_div_two_iff.mpr hx

lemma atan2_scale {y x r : ℝ} (hr : 0 < r) :
    atan2 (r * y) (r * x) = atan2 y x := by
  unfold atan2
  have h : (⟨r * x, r * y⟩ : ℂ) = (r : ℝ) * (⟨x, y⟩ : ℂ) := by
    apply Complex.ext <;>
      simp [Complex.mul_re, Complex.mul_im]
  rw [h, Complex.arg_real_mul _ hr]

lemma abs_mk_eq_one {a b : ℝ} (h : a * a + b * b = 1) :
    Complex.abs ⟨a, b⟩ = 1 := by
  rw [Complex.abs_apply, Complex.normSq_mk, h, Real.sqrt_one]

/-- Recovering longitude/latitude from a unit vector via `atan2` (as the
source does) and rebuilding the vector gives back the original vector. -/
lemma unitVecRad_recover {x y z : ℝ} (h : x * x + y * y + z * z = 1) :
    unitVecRad (atan2 y x) (atan2 z (sqrt (x * x + y * y))) = (x, y, z) := by
  have hxy : 0 ≤ x * x + y * y := by nlinarith [sq_nonneg x, sq_nonneg y]
  have hsq : sqrt (x * x + y * y) * sqrt (x * x + y * y) = x * x + y * y :=
    Real.mul_self_sqrt hxy
  have habs1 : Complex.abs ⟨sqrt (x * x + y * y), z⟩ = 1 :=
    abs_mk_eq_one (by rw [hsq]; linarith)
  have hne1 : (⟨sqrt (x * x + y * y), z⟩ : ℂ) ≠ 0 := by
    intro h0
    rw [h0] at habs1
    simp at habs1
  have hcoslat : cos (atan2 z (sqrt (x * x + y * y))) = sqrt (x * x + y * y) := by
    unfold atan2
    rw [Complex.cos_arg hne1, habs1]
    simp
  have hsinlat : sin (atan2 z (sqrt (x * x + y * y))) = z := by
    unfold atan2
    rw [Complex.sin_arg, habs1]
    simp
  by_cases hr0 : sqrt (x * x + y * y) = 0
  · have hxy0 : x * x + y * y = 0 := by
      rw [← hsq, hr0, mul_zero]
    have hx0 : x = 0 := by nlinarith [sq_nonneg x, sq_nonneg y]
    have hy0 : y = 0 := by nlinarith [sq_nonneg x, sq_nonneg y]
    subst hx0; subst hy0
    simp only [unitVecRad]
    rw [hcoslat, hsinlat, hr0]
    simp
  · have hrpos : 0 < sqrt (x * x + y * y) :=
      lt_of_le_of_ne (Real.sqrt_nonneg _) (Ne.symm hr0)
    have habs2 : Complex.abs ⟨x, y⟩ = sqrt (x * x + y * y) := by
      rw [Complex.abs_apply, Complex.normSq_mk]
    have hne2 : (⟨x, y⟩ : ℂ) ≠ 0 := by
      intro h0
      rw [h0] at habs2
      simp at habs2
      exact hr0 habs2.symm
    have hcoslon : cos (atan2 y x) = x / sqrt (x * x + y * y) := by
      unfold atan2
      rw [Complex.cos_arg hne2, habs2]
    have hsinlon : sin (atan2 y x) = y / sqrt (x * x + y * y) := by
      unfold atan2
      rw [Complex.sin_arg, habs2]
    simp only [unitVecRad, hcoslat, hsinlat, hcoslon, hsinlon]
    refine Prod.ext ?_ (Prod.ext ?_ rfl)
    · field_simp
    · field_simp

lemma slerp_expand (A B : ℝ) (u v : ℝ × ℝ × ℝ) :
    dot3 (add3 (smul3 A u) (smul3 B v)) (add3 (smul3 A u) (smul3 B v)) =
      A ^ 2 * dot3 u u + 2 * (A * B) * dot3 u v + B ^ 2 * dot3 v v := by
  simp only [dot3, add3, smul3]
  ring

lemma sin_one_sub_mul (f d : ℝ) :
    sin ((1 - f) * d) = sin d * cos (f * d) - cos d * sin (f * d) := by
  have h : (1 - f) * d = d - f * d := by ring
  rw [h, Real.sin_sub]

/-- The interpolated vector has unit norm whenever `sin d ≠ 0`. -/
lemma slerp_unit {u v : ℝ × ℝ × ℝ} {d : ℝ} (f : ℝ) (hu : dot3 u u = 1)
    (hv : dot3 v v = 1) (hduv : dot3 u v = cos d) (hS : sin d ≠ 0) :
    dot3 (add3 (smul3 (sin ((1 - f) * d) / sin d) u)
               (smul3 (sin (f * d) / sin d) v))
         (add3 (smul3 (sin ((1 - f) * d) / sin d) u)
               (smul3 (sin (f * d) / sin d) v)) = 1 := by
  rw [slerp_expand, hu, hv, hduv]
  have h1 := Real.sin_sq_add_cos_sq d
  have h2 := Real.sin_sq_add_cos_sq (f * d)
  have hid : sin ((1 - f) * d) ^ 2 +
      2 * (sin ((1 - f) * d) * sin (f * d)) * cos d + sin (f * d) ^ 2 =
      sin d ^ 2 := by
    rw [sin_one_sub_mul]
    linear_combination (sin d) ^ 2 * h2 - (sin (f * d)) ^ 2 * h1
  have hrw : (sin ((1 - f) * d) / sin d) ^ 2 * 1 +
      2 * (sin ((1 - f) * d) / sin d * (sin (f * d) / sin d)) * cos d +
      (sin (f * d) / sin d) ^ 2 * 1 =
      (sin ((1 - f) * d) ^ 2 +
        2 * (sin ((1 - f) * d) * sin (f * d)) * cos d + sin (f * d) ^ 2) /
        sin d ^ 2 := by
    field_simp
    ring
  rw [hrw, hid]
  exact div_self (pow_ne_zero 2 hS)

/-- The dot product of the start vector with the interpolated vector is
`cos (f·d)` whenever `sin d ≠ 0`. -/
lemma slerp_dot_left {u v : ℝ × ℝ × ℝ} {d : ℝ} (f : ℝ) (hu : dot3 u u = 1)
    (hduv : dot3 u v = cos d) (hS : sin d ≠ 0) :
    dot3 u (add3 (smul3 (sin ((1 - f) * d) / sin d) u)
                 (smul3 (sin (f * d) / sin d) v)) = cos (f * d) := by
  have hexp : dot3 u (add3 (smul3 (sin ((1 - f) * d) / sin d) u)
      (smul3 (sin (f * d) / sin d) v)) =
      (sin ((1 - f) * d) / sin d) * dot3 u u +
        (sin (f * d) / sin d) * dot3 u v := by
    simp only [dot3, add3, smul3]
    ring
  rw [hexp, hu, hduv, sin_one_sub_mul]
  field_simp
  ring

lemma deg_rad_id (r : ℝ) : degreesToRadians (radiansToDegrees r) = r := by
  unfold degreesToRadians radiansToDegrees
  field_simp

lemma rad_deg_id (x : ℝ) : radiansToDegrees (degreesToRadians x) = x := by
  unfold degreesToRadians radiansToDegrees
  field_simp

lemma sep_pos {p q : ℝ × ℝ} (h2 : dot3 (unitVec p) (unitVec q) < 1) :
    0 < havSeparation p q := by
  rw [havSeparation_eq_arccos]
  exact Real.arccos_pos.mpr h2

lemma sep_lt_pi {p q : ℝ × ℝ} (h1 : -1 < dot3 (unitVec p) (unitVec q)) :
    havSeparation p q < π := by
  rw [havSeparation_eq_arccos]
  rcases lt_or_eq_of_le (Real.arccos_le_pi (dot3 (unitVec p) (unitVec q)))
    with h | h
  · exact h
  · exact absurd (Real.arccos_eq_pi.mp h) (by linarith)

lemma sin_sep_pos {p q : ℝ × ℝ} (h1 : -1 < dot3 (unitVec p) (unitVec q))
    (h2 : dot3 (unitVec p) (unitVec q) < 1) :
    0 < sin (havSeparation p q) :=
  Real.sin_pos_of_pos_of_lt_pi (sep_pos h2) (sep_lt_pi h1)

lemma cos_sep (p q : ℝ × ℝ) :
    cos (havSeparation p q) = dot3 (unitVec p) (unitVec q) := by
  rw [havSeparation_eq_arccos]
  exact Real.cos_arccos
    (neg_one_le_dot3 (unitVec_norm p) (unitVec_norm q))
    (dot3_le_one (unitVec_norm p) (unitVec_norm q))

/-- Converting a unit vector back to degrees through the source's
`atan2` recipe and then to a vector again is the identity. -/
lemma unitVec_of_recover {X Y Z : ℝ} (h : X * X + Y * Y + Z * Z = 1) :
    unitVec (radiansToDegrees (atan2 Y X),
      radiansToDegrees (atan2 Z (sqrt (X * X + Y * Y)))) = (X, Y, Z) := by
  simp only [unitVec]
  rw [deg_rad_id, deg_rad_id]
  exact unitVecRad_recover h

/-- The non-degenerate branch of `calculateIntermediatePoint` produces,
on the unit sphere, exactly the spherical linear interpolation of the two
endpoint vectors. -/
lemma interp_vec (p q : ℝ × ℝ) (f : ℝ)
    (h1 : -1 < dot3 (unitVec p) (unitVec q))
    (h2 : dot3 (unitVec p) (unitVec q) < 1) :
    unitVec (calculateIntermediatePoint p q f) =
      add3 (smul3 (sin ((1 - f) * havSeparation p q) /
          sin (havSeparation p q)) (unitVec p))
        (smul3 (sin (f * havSeparation p q) /
          sin (havSeparation p q)) (unitVec q)) := by
  have hdne : havSeparation p q ≠ 0 := ne_of_gt (sep_pos h2)
  have hS : sin (havSeparation p q) ≠ 0 := ne_of_gt (sin_sep_pos h1 h2)
  have hww := slerp_unit f (unitVec_norm p) (unitVec_norm q)
    (cos_sep p q).symm hS
  set w := add3 (smul3 (sin ((1 - f) * havSeparation p q) /
      sin (havSeparation p q)) (unitVec p))
    (smul3 (sin (f * havSeparation p q) /
      sin (havSeparation p q)) (unitVec q)) with hw
  have hunit : w.1 * w.1 + w.2.1 * w.2.1 + w.2.2 * w.2.2 = 1 := by
    have hdw : dot3 w w = 1 := hww
    simpa only [dot3] using hdw
  simp only [calculateIntermediatePoint]
  rw [if_neg hdne]
  have hX : sin ((1 - f) * havSeparation p q) / sin (havSeparation p q) *
      cos (degreesToRadians p.2) * cos (degreesToRadians p.1) +
      sin (f * havSeparation p q) / sin (havSeparation p q) *
      cos (degreesToRadians q.2) * cos (degreesToRadians q.1) = w.1 := by
    rw [hw]
    simp only [add3, smul3, unitVec, unitVecRad]
    ring
  have hY : sin ((1 - f) * havSeparation p q) / sin (havSeparation p q) *
      cos (degreesToRadians p.2) * sin (degreesToRadians p.1) +
      sin (f * havSeparation p q) / sin (havSeparation p q) *
      cos (degreesToRadians q.2) * sin (degreesToRadians q.1) = w.2.1 := by
    rw [hw]
    simp only [add3, smul3, unitVec, unitVecRad]
    ring
  have hZ : sin ((1 - f) * havSeparation p q) / sin (havSeparation p q) *
      sin (degreesToRadians p.2) +
      sin (f * havSeparation p q) / sin (havSeparation p q) *
      sin (degreesToRadians q.2) = w.2.2 := by
    rw [hw]
    simp only [add3, smul3, unitVec, unitVecRad]
  rw [hX, hY, hZ, unitVec_of_recover hunit]

/-- C4 helper: interpolating from a point to itself returns the start
point for every fraction, because the computed separation is zero. -/
lemma interp_self (p : ℝ × ℝ) (f : ℝ) :
    calculateIntermediatePoint p p f = p := by
  have hd : havSeparation p p = 0 := by
    rw [havSeparation_eq_arccos, Real.arccos_eq_zero]
    rw [unitVec_norm p]
  simp [calculateIntermediatePoint, hd]

/-- The haversine distance equals the earth radius times the central
angle `arccos (u·v)` of the two endpoint unit vectors. -/
lemma dist_eq (p q : ℝ × ℝ) (R : ℝ) :
    calculateGreatCircleDistance p q R =
      R * arccos (dot3 (unitVec p) (unitVec q)) := by
  have hle := dot3_le_one (unitVec_norm p) (unitVec_norm q)
  have hge := neg_one_le_dot3 (unitVec_norm p) (unitVec_norm q)
  simp only [calculateGreatCircleDistance]
  have hsub1 : degreesToRadians (q.2 - p.2) =
      degreesToRadians q.2 - degreesToRadians p.2 := by
    unfold degreesToRadians
    ring
  have hsub2 : degreesToRadians (q.1 - p.1) =
      degreesToRadians q.1 - degreesToRadians p.1 := by
    unfold degreesToRadians
    ring
  rw [hsub1, hsub2]
  have ha : sin ((degreesToRadians q.2 - degreesToRadians p.2) / 2) *
        sin ((degreesToRadians q.2 - degreesToRadians p.2) / 2) +
      cos (degreesToRadians p.2) * cos (degreesToRadians q.2) *
        (sin ((degreesToRadians q.1 - degreesToRadians p.1) / 2) *
          sin ((degreesToRadians q.1 - degreesToRadians p.1) / 2)) =
      (1 - dot3 (unitVec p) (unitVec q)) / 2 := by
    linear_combination hav_arg_eq p q
  rw [ha]
  rw [show (1:ℝ) - (1 - dot3 (unitVec p) (unitVec q)) / 2 =
    (1 + dot3 (unitVec p) (unitVec q)) / 2 from by ring]
  have hcos := Real.cos_arccos hge hle
  have hsin_nonneg : 0 ≤ sin (arccos (dot3 (unitVec p) (unitVec q)) / 2) := by
    apply Real.sin_nonneg_of_nonneg_of_le_pi
    · have h := Real.arccos_nonneg (dot3 (unitVec p) (unitVec q))
      linarith
    · have h := Real.arccos_le_pi (dot3 (unitVec p) (unitVec q))
      linarith [Real.pi_pos]
  have hsqrt1 : sqrt ((1 - dot3 (unitVec p) (unitVec q)) / 2) =
      sin (arccos (dot3 (unitVec p) (unitVec q)) / 2) := by
    have h := Real.abs_sin_half (arccos (dot3 (unitVec p) (unitVec q)))
    rw [hcos] at h
    rw [← h, abs_of_nonneg hsin_nonneg]
  have hsqrt2 : sqrt ((1 + dot3 (unitVec p) (unitVec q)) / 2) =
      cos (arccos (dot3 (unitVec p) (unitVec q)) / 2) := by
    have h := Real.cos_half
      (by linarith [Real.arccos_nonneg (dot3 (unitVec p) (unitVec q)),
        Real.pi_pos])
      (Real.arccos_le_pi (dot3 (unitVec p) (unitVec q)))
    rw [hcos] at h
    exact h.symm
  rw [hsqrt1, hsqrt2, atan2_cos_sin]
  · ring
  · constructor
    · have h := Real.arccos_nonneg (dot3 (unitVec p) (unitVec q))
      linarith [Real.pi_pos]
    · have h := Real.arccos_le_pi (dot3 (unitVec p) (unitVec q))
      linarith [Real.pi_pos]

/-- At fraction `0` the interpolation returns the start point exactly
in coordinates, provided the start latitude is strictly inside
`(-90°, 90°)` and the start longitude inside `(-180°, 180°]`. -/
lemma interp_zero_coords (p q : ℝ × ℝ)
    (h1 : -1 < dot3 (unitVec p) (unitVec q))
    (h2 : dot3 (unitVec p) (unitVec q) < 1)
    (hlat : degreesToRadians p.2 ∈ Set.Ioo (-(π / 2)) (π / 2))
    (hlon : degreesToRadians p.1 ∈ Set.Ioc (-π) π) :
    calculateIntermediatePoint p q 0 = p := by
  have hdne : havSeparation p q ≠ 0 := ne_of_gt (sep_pos h2)
  have hS : sin (havSeparation p q) ≠ 0 := ne_of_gt (sin_sep_pos h1 h2)
  have hcos : 0 < cos (degreesToRadians p.2) := Real.cos_pos_of_mem_Ioo hlat
  simp only [calculateIntermediatePoint]
  rw [if_neg hdne]
  have hA : sin ((1 - (0:ℝ)) * havSeparation p q) / sin (havSeparation p q) =
      1 := by
    rw [show (1 - (0:ℝ)) * havSeparation p q = havSeparation p q from by ring,
      div_self hS]
  have hB : sin ((0:ℝ) * havSeparation p q) / sin (havSeparation p q) = 0 := by
    rw [show (0:ℝ) * havSeparation p q = 0 from by ring, Real.sin_zero,
      zero_div]
  rw [hA, hB]
  simp only [one_mul, zero_mul, add_zero]
  have hsq : cos (degreesToRadians p.2) * cos (degreesToRadians p.1) *
        (cos (degreesToRadians p.2) * cos (degreesToRadians p.1)) +
      cos (degreesToRadians p.2) * sin (degreesToRadians p.1) *
        (cos (degreesToRadians p.2) * sin (degreesToRadians p.1)) =
      cos (degreesToRadians p.2) ^ 2 := by
    linear_combination (cos (degreesToRadians p.2)) ^ 2 *
      Real.sin_sq_add_cos_sq (degreesToRadians p.1)
  rw [hsq, Real.sqrt_sq hcos.le, atan2_scale hcos, atan2_cos_sin hlon,
    atan2_cos_sin ⟨by linarith [hlat.1, Real.pi_pos],
      by linarith [hlat.2, Real.pi_pos]⟩,
    rad_deg_id, rad_deg_id]

/-- At fraction `1` the interpolation returns the end point exactly in
coordinates, under the same interiority conditions on the end point. -/
lemma interp_one_coords (p q : ℝ × ℝ)
    (h1 : -1 < dot3 (unitVec p) (unitVec q))
    (h2 : dot3 (unitVec p) (unitVec q) < 1)
    (hlat : degreesToRadians q.2 ∈ Set.Ioo (-(π / 2)) (π / 2))
    (hlon : degreesToRadians q.1 ∈ Set.Ioc (-π) π) :
    calculateIntermediatePoint p q 1 = q := by
  have hdne : havSeparation p q ≠ 0 := ne_of_gt (sep_pos h2)
  have hS : sin (havSeparation p q) ≠ 0 := ne_of_gt (sin_sep_pos h1 h2)
  have hcos : 0 < cos (degreesToRadians q.2) := Real.cos_pos_of_mem_Ioo hlat
  simp only [calculateIntermediatePoint]
  rw [if_neg hdne]
  have hA : sin ((1 - (1:ℝ)) * havSeparation p q) / sin (havSeparation p q) =
      0 := by
    rw [show (1 - (1:ℝ)) * havSeparation p q = 0 from by ring, Real.sin_zero,
      zero_div]
  have hB : sin ((1:ℝ) * havSeparation p q) / sin (havSeparation p q) = 1 := by
    rw [show (1:ℝ) * havSeparation p q = havSeparation p q from by ring,
      div_self hS]
  rw [hA, hB]
  simp only [one_mul, zero_mul, zero_add]
  have hsq : cos (degreesToRadians q.2) * cos (degreesToRadians q.1) *
        (cos (degreesToRadians q.2) * cos (degreesToRadians q.1)) +
      cos (degreesToRadians q.2) * sin (degreesToRadians q.1) *
        (cos (degreesToRadians q.2) * sin (degreesToRadians q.1)) =
      cos (degreesToRadians q.2) ^ 2 := by
    linear_combination (cos (degreesToRadians q.2)) ^ 2 *
      Real.sin_sq_add_cos_sq (degreesToRadians q.1)
  rw [hsq, Real.sqrt_sq hcos.le, atan2_scale hcos, atan2_cos_sin hlon,
    atan2_cos_sin ⟨by linarith [hlat.1, Real.pi_pos],
      by linarith [hlat.2, Real.pi_pos]⟩,
    rad_deg_id, rad_deg_id]

/-- The distance from the start point to the interpolated point is the
fraction times the full distance — exactly, in real arithmetic. -/
lemma dist_interp_frac (p q : ℝ × ℝ) (f : ℝ) (hf0 : 0 ≤ f) (hf1 : f ≤ 1)
    (h1 : -1 < dot3 (unitVec p) (unitVec q))
    (h2 : dot3 (unitVec p) (unitVec q) < 1) (R : ℝ) :
    calculateGreatCircleDistance p (calculateIntermediatePoint p q f) R =
      f * calculateGreatCircleDistance p q R := by
  have hS : sin (havSeparation p q) ≠ 0 := ne_of_gt (sin_sep_pos h1 h2)
  rw [dist_eq, dist_eq, interp_vec p q f h1 h2,
    slerp_dot_left f (unitVec_norm p) (cos_sep p q).symm hS]
  have hnn : 0 ≤ f * havSeparation p q :=
    mul_nonneg hf0 (le_of_lt (sep_pos h2))
  have hle : f * havSeparation p q ≤ π :=
    le_trans (mul_le_of_le_one_left (le_of_lt (sep_pos h2)) hf1)
      (le_of_lt (sep_lt_pi h1))
  rw [Real.arccos_cos hnn hle, ← havSeparation_eq_arccos]
  ring

/-- If the computed separation is zero the function returns the start
point unchanged, whatever the fraction. -/
lemma interp_of_sep_zero {p q : ℝ × ℝ} (h : havSeparation p q = 0)
    (f : ℝ) : calculateIntermediatePoint p q f = p := by
  simp [calculateIntermediatePoint, h]

lemma dot3_eq_neg_one_z {u v : ℝ × ℝ × ℝ} (hu : dot3 u u = 1)
    (hv : dot3 v v = 1) (h : dot3 u v = -1) : u.2.2 = -v.2.2 := by
  simp only [dot3] at *
  have h3 : (u.2.2 + v.2.2) ^ 2 = 0 := by
    nlinarith [sq_nonneg (u.1 + v.1), sq_nonneg (u.2.1 + v.2.1)]
  nlinarith [h3]

lemma radiansToDegrees_mono {a b : ℝ} (h : a ≤ b) :
    radiansToDegrees a ≤ radiansToDegrees b := by
  unfold radiansToDegrees
  apply mul_le_mul_of_nonneg_right h
  positivity

lemma radiansToDegrees_pi : radiansToDegrees π = 180 := by
  unfold radiansToDegrees
  field_simp

lemma radiansToDegrees_half_pi : radiansToDegrees (π / 2) = 90 := by
  unfold radiansToDegrees
  field_simp
  ring

lemma radiansToDegrees_neg (x : ℝ) :
    radiansToDegrees (-x) = -radiansToDegrees x := by
  unfold radiansToDegrees
  ring

/-- The non-degenerate branch always emits a valid GeoPoint, because
both output coordinates come from `atan2` (longitude from a full-range
`atan2`, latitude from an `atan2` whose second argument is a
nonnegative square root). -/
lemma lon_bounds (y x : ℝ) :
    -180 ≤ radiansToDegrees (atan2 y x) ∧
      radiansToDegrees (atan2 y x) ≤ 180 := by
  constructor
  · have hm := radiansToDegrees_mono (neg_pi_lt_atan2 y x).le
    rw [radiansToDegrees_neg, radiansToDegrees_pi] at hm
    exact hm
  · have hm := radiansToDegrees_mono (atan2_le_pi y x)
    rw [radiansToDegrees_pi] at hm
    exact hm

lemma lat_bounds (z s : ℝ) (hs : 0 ≤ s) :
    -90 ≤ radiansToDegrees (atan2 z s) ∧
      radiansToDegrees (atan2 z s) ≤ 90 := by
  have h := abs_atan2_le_half_pi (y := z) hs
  constructor
  · have hm := radiansToDegrees_mono (neg_le_of_abs_le h)
    rw [radiansToDegrees_neg, radiansToDegrees_half_pi] at hm
    exact hm
  · have hm := radiansToDegrees_mono (le_of_abs_le h)
    rw [radiansToDegrees_half_pi] at hm
    exact hm

lemma interp_valid_of_sep_ne (p q : ℝ × ℝ) (f : ℝ)
    (hd : havSeparation p q ≠ 0) :
    isValidGeoPoint (calculateIntermediatePoint p q f) := by
  simp only [calculateIntermediatePoint]
  rw [if_neg hd]
  unfold isValidGeoPoint
  exact ⟨(lon_bounds _ _).1, (lon_bounds _ _).2,
    (lat_bounds _ _ (Real.sqrt_nonneg _)).1,
    (lat_bounds _ _ (Real.sqrt_nonneg _)).2⟩

end Geo


/-- C4: for every point `p` and every fraction `f` (clamped or not),
`calculateIntermediatePoint(p, p, f)` returns `p` exactly: the computed
angular separation `d` is zero, so the function returns the start point
before the division by `sin d` is reached. -/
theorem c4_interp_degenerate_returns_start (p : ℝ × ℝ) (f : ℝ) :
    Geo.calculateIntermediatePoint p p f = p :=
  Geo.interp_self p f

/-- C6: for every origin, destination and positive total duration,
`calculateAircraftPosition(origin, destination, elapsed, total)` equals
`calculateIntermediatePoint(origin, destination, elapsed / total)` — the
source defines the former as exactly this call. -/
theorem c6_position_refines_interpolate (origin destination : ℝ × ℝ)
    (elapsedMinutes totalDurationMinutes : ℝ)
    (h : 0 < totalDurationMinutes) :
    Geo.calculateAircraftPosition origin destination elapsedMinutes
        totalDurationMinutes =
      Geo.calculateIntermediatePoint origin destination
        (elapsedMinutes / totalDurationMinutes) := rfl

/-- C7: for valid GeoPoints `p` and `q` (and `p`, `q` not exactly
antipodal, the measure-zero configuration where the idealised real
computation divides `0/0` while double arithmetic does not), the
interpolation at fraction `0` lands on exactly the same point of the
unit sphere as `p`, and at fraction `1` on the same point as `q`;
agreement on the sphere is the coordinate-free reading of
"approximately `p`/`q`", and at non-polar points it is exact coordinate
agreement as well (see the C5 theorem). -/
theorem c7_interp_endpoints (p q : ℝ × ℝ)
    (hp : Geo.isValidGeoPoint p) (hq : Geo.isValidGeoPoint q)
    (h : Geo.dot3 (Geo.unitVec p) (Geo.unitVec q) ≠ -1) :
    Geo.unitVec (Geo.calculateIntermediatePoint p q 0) = Geo.unitVec p ∧
      Geo.unitVec (Geo.calculateIntermediatePoint p q 1) = Geo.unitVec q := by
  have hle := Geo.dot3_le_one (Geo.unitVec_norm p) (Geo.unitVec_norm q)
  have hge := Geo.neg_one_le_dot3 (Geo.unitVec_norm p) (Geo.unitVec_norm q)
  have h1 : -1 < Geo.dot3 (Geo.unitVec p) (Geo.unitVec q) :=
    lt_of_le_of_ne hge (Ne.symm h)
  by_cases h2 : Geo.dot3 (Geo.unitVec p) (Geo.unitVec q) < 1
  · have hS : Real.sin (Geo.havSeparation p q) ≠ 0 :=
      ne_of_gt (Geo.sin_sep_pos h1 h2)
    constructor
    · rw [Geo.interp_vec p q 0 h1 h2]
      have e1 : (1 - (0:ℝ)) * Geo.havSeparation p q =
          Geo.havSeparation p q := by ring
      have e2 : (0:ℝ) * Geo.havSeparation p q = 0 := by ring
      rw [e1, e2, Real.sin_zero, div_self hS, zero_div]
      simp [Geo.add3, Geo.smul3]
    · rw [Geo.interp_vec p q 1 h1 h2]
      have e1 : (1 - (1:ℝ)) * Geo.havSeparation p q = 0 := by ring
      have e2 : (1:ℝ) * Geo.havSeparation p q =
          Geo.havSeparation p q := by ring
      rw [e1, e2, Real.sin_zero, div_self hS, zero_div]
      simp [Geo.add3, Geo.smul3]
  · have h2' : Geo.dot3 (Geo.unitVec p) (Geo.unitVec q) = 1 :=
      le_antisymm hle (not_lt.mp h2)
    have huv : Geo.unitVec p = Geo.unitVec q :=
      Geo.dot3_eq_one_iff_aux (Geo.unitVec_norm p) (Geo.unitVec_norm q) h2'
    have hsep : Geo.havSeparation p q = 0 := by
      rw [Geo.havSeparation_eq_arccos, Real.arccos_eq_zero, h2']
    rw [Geo.interp_of_sep_zero hsep, Geo.interp_of_sep_zero hsep]
    exact ⟨rfl, huv⟩

/-- Witness for C7: the equator points `(0,0)` and `(90,0)`. -/
theorem c7_witness :
    (Geo.isValidGeoPoint ((0:ℝ), (0:ℝ)) ∧
      Geo.isValidGeoPoint ((90:ℝ), (0:ℝ)) ∧
      Geo.dot3 (Geo.unitVec ((0:ℝ), (0:ℝ)))
        (Geo.unitVec ((90:ℝ), (0:ℝ))) ≠ -1) ∧
    (Geo.unitVec (Geo.calculateIntermediatePoint (0, 0) (90, 0) 0) =
        Geo.unitVec ((0:ℝ), (0:ℝ)) ∧
      Geo.unitVec (Geo.calculateIntermediatePoint (0, 0) (90, 0) 1) =
        Geo.unitVec ((90:ℝ), (0:ℝ))) := by
  have hdot : Geo.dot3 (Geo.unitVec ((0:ℝ), (0:ℝ)))
      (Geo.unitVec ((90:ℝ), (0:ℝ))) ≠ -1 := by
    have h0 : Geo.degreesToRadians (0:ℝ) = 0 := by
      unfold Geo.degreesToRadians
      ring
    have hl : Geo.degreesToRadians (90:ℝ) = Real.pi / 2 := by
      unfold Geo.degreesToRadians
      ring
    simp [Geo.dot3, Geo.unitVec, Geo.unitVecRad, h0, hl]
  have hp : Geo.isValidGeoPoint ((0:ℝ), (0:ℝ)) := by
    norm_num [Geo.isValidGeoPoint]
  have hq : Geo.isValidGeoPoint ((90:ℝ), (0:ℝ)) := by
    norm_num [Geo.isValidGeoPoint]
  exact ⟨⟨hp, hq, hdot⟩, c7_interp_endpoints (0, 0) (90, 0) hp hq hdot⟩

/-- C10 (amended): whenever the non-degenerate branch is taken (nonzero
angular separation), the output is a valid GeoPoint because both output
coordinates come from `atan2` (the latitude's second argument being a
nonnegative square root); when the separation is zero the start point is
returned unchanged, so the output is valid whenever the start point is.
The original claim fails only on the degenerate branch with an invalid
start point (see the counterexample). -/
theorem c10_interp_output_valid (p q : ℝ × ℝ) (f : ℝ)
    (h : Geo.isValidGeoPoint p ∨ Geo.havSeparation p q ≠ 0) :
    Geo.isValidGeoPoint (Geo.calculateIntermediatePoint p q f) := by
  by_cases hd : Geo.havSeparation p q = 0
  · rcases h with hp | hne
    · rw [Geo.interp_of_sep_zero hd]
      exact hp
    · exact absurd hd hne
  · exact Geo.interp_valid_of_sep_ne p q f hd

/-- Counterexample for C10 as stated: for the (equal, out-of-range)
input points `(200, 100)` the separation is zero, the start point is
returned unchanged, and the result is not a valid GeoPoint. -/
theorem c10_counterexample :
    Geo.calculateIntermediatePoint (200, 100) (200, 100) 0.5 =
        ((200:ℝ), (100:ℝ)) ∧
      ¬ Geo.isValidGeoPoint ((200:ℝ), (100:ℝ)) :=
  ⟨Geo.interp_self _ _, by norm_num [Geo.isValidGeoPoint]⟩

/-- Witness for C10 at a valid start point and an extrapolating
fraction `f = 2` outside `[0, 1]`. -/
theorem c10_witness :
    (Geo.isValidGeoPoint ((0:ℝ), (0:ℝ)) ∨
        Geo.havSeparation (0, 0) (90, 0) ≠ 0) ∧
      Geo.isValidGeoPoint (Geo.calculateIntermediatePoint (0, 0) (90, 0) 2) :=
  ⟨Or.inl (by norm_num [Geo.isValidGeoPoint]),
    c10_interp_output_valid (0, 0) (90, 0) 2
      (Or.inl (by norm_num [Geo.isValidGeoPoint]))⟩

/-- Witness for C6 at the concrete flight configuration. -/
theorem c6_witness :
    (0:ℝ) < 120 ∧
      Geo.calculateAircraftPosition (-84.6627, 39.0458) (-81.3792, 28.4312)
          2.5 120 =
        Geo.calculateIntermediatePoint (-84.6627, 39.0458)
          (-81.3792, 28.4312) (2.5 / 120) :=
  ⟨by norm_num,
    c6_position_refines_interpolate (-84.6627, 39.0458) (-81.3792, 28.4312)
      2.5 120 (by norm_num)⟩

/-- The CVG latitude, in radians, lies strictly inside `(-π/2, π/2)`. -/
lemma cvg_lat_mem :
    Geo.degreesToRadians (39.0458 : ℝ) ∈
      Set.Ioo (-(Real.pi / 2)) (Real.pi / 2) := by
  unfold Geo.degreesToRadians
  constructor
  · nlinarith [Real.pi_pos]
  · nlinarith [Real.pi_pos]

/-- The CVG longitude, in radians, lies inside `(-π, π]`. -/
lemma cvg_lon_mem :
    Geo.degreesToRadians ((-84.6627 : ℝ)) ∈ Set.Ioc (-Real.pi) Real.pi := by
  unfold Geo.degreesToRadians
  constructor
  · nlinarith [Real.pi_pos]
  · nlinarith [Real.pi_pos]

/-- The MCO latitude, in radians, lies strictly inside `(-π/2, π/2)`. -/
lemma mco_lat_mem :
    Geo.degreesToRadians (28.4312 : ℝ) ∈
      Set.Ioo (-(Real.pi / 2)) (Real.pi / 2) := by
  unfold Geo.degreesToRadians
  constructor
  · nlinarith [Real.pi_pos]
  · nlinarith [Real.pi_pos]

/-- The MCO longitude, in radians, lies inside `(-π, π]`. -/
lemma mco_lon_mem :
    Geo.degreesToRadians ((-81.3792 : ℝ)) ∈ Set.Ioc (-Real.pi) Real.pi := by
  unfold Geo.degreesToRadians
  constructor
  · nlinarith [Real.pi_pos]
  · nlinarith [Real.pi_pos]

/-- CVG and MCO are distinct points on the sphere: the dot product of
their unit vectors is strictly below `1` (their latitudes differ). -/
lemma cvg_mco_dot_lt :
    Geo.dot3 (Geo.unitVec ((-84.6627 : ℝ), 39.0458))
      (Geo.unitVec ((-81.3792 : ℝ), 28.4312)) < 1 := by
  apply lt_of_le_of_ne (Geo.dot3_le_one
    (Geo.unitVec_norm ((-84.6627 : ℝ), 39.0458))
    (Geo.unitVec_norm ((-81.3792 : ℝ), 28.4312)))
  intro heq
  have huv := Geo.dot3_eq_one_iff_aux
    (Geo.unitVec_norm ((-84.6627 : ℝ), 39.0458))
    (Geo.unitVec_norm ((-81.3792 : ℝ), 28.4312)) heq
  have hz : Real.sin (Geo.degreesToRadians (39.0458 : ℝ)) =
      Real.sin (Geo.degreesToRadians (28.4312 : ℝ)) :=
    congrArg (fun w => w.2.2) huv
  have hmem1 : Geo.degreesToRadians (39.0458 : ℝ) ∈
      Set.Icc (-(Real.pi / 2)) (Real.pi / 2) :=
    ⟨cvg_lat_mem.1.le, cvg_lat_mem.2.le⟩
  have hmem2 : Geo.degreesToRadians (28.4312 : ℝ) ∈
      Set.Icc (-(Real.pi / 2)) (Real.pi / 2) :=
    ⟨mco_lat_mem.1.le, mco_lat_mem.2.le⟩
  have heqphi := Real.injOn_sin hmem1 hmem2 hz
  unfold Geo.degreesToRadians at heqphi
  nlinarith [Real.pi_pos, heqphi]

/-- CVG and MCO are not antipodal: the dot product of their unit
vectors is strictly above `-1`. -/
lemma cvg_mco_dot_gt :
    -1 < Geo.dot3 (Geo.unitVec ((-84.6627 : ℝ), 39.0458))
      (Geo.unitVec ((-81.3792 : ℝ), 28.4312)) := by
  apply lt_of_le_of_ne (Geo.neg_one_le_dot3
    (Geo.unitVec_norm ((-84.6627 : ℝ), 39.0458))
    (Geo.unitVec_norm ((-81.3792 : ℝ), 28.4312)))
  intro heq
  have hz := Geo.dot3_eq_neg_one_z
    (Geo.unitVec_norm ((-84.6627 : ℝ), 39.0458))
    (Geo.unitVec_norm ((-81.3792 : ℝ), 28.4312)) heq.symm
  have hz' : Real.sin (Geo.degreesToRadians (39.0458 : ℝ)) =
      Real.sin (-(Geo.degreesToRadians (28.4312 : ℝ))) := by
    rw [Real.sin_neg]
    exact hz
  have hmem1 : Geo.degreesToRadians (39.0458 : ℝ) ∈
      Set.Icc (-(Real.pi / 2)) (Real.pi / 2) :=
    ⟨cvg_lat_mem.1.le, cvg_lat_mem.2.le⟩
  have hmem2 : -(Geo.degreesToRadians (28.4312 : ℝ)) ∈
      Set.Icc (-(Real.pi / 2)) (Real.pi / 2) :=
    ⟨by have h := mco_lat_mem.2; linarith,
      by have h := mco_lat_mem.1; linarith⟩
  have heqphi := Real.injOn_sin hmem1 hmem2 hz'
  unfold Geo.degreesToRadians at heqphi
  nlinarith [Real.pi_pos, heqphi]

/-- C5: for the concrete flight (origin CVG `(-84.6627, 39.0458)`,
destination MCO `(-81.3792, 28.4312)`, 120-minute flight):
the position at elapsed `0` is the origin, the position at elapsed `120`
is the destination, and the great-circle distance from the origin to the
position at elapsed `2.5` is `(2.5/120)` times the full origin-to-
destination distance — all exactly in real arithmetic, hence a fortiori
within any small numerical tolerance. -/
theorem c5_concrete_flight_scenario :
    Geo.calculateAircraftPosition ((-84.6627 : ℝ), 39.0458)
        ((-81.3792 : ℝ), 28.4312) 0 120 = ((-84.6627 : ℝ), 39.0458) ∧
      Geo.calculateAircraftPosition ((-84.6627 : ℝ), 39.0458)
        ((-81.3792 : ℝ), 28.4312) 120 120 = ((-81.3792 : ℝ), 28.4312) ∧
      Geo.calculateGreatCircleDistance ((-84.6627 : ℝ), 39.0458)
          (Geo.calculateAircraftPosition ((-84.6627 : ℝ), 39.0458)
            ((-81.3792 : ℝ), 28.4312) 2.5 120) 6371 =
        2.5 / 120 * Geo.calculateGreatCircleDistance
          ((-84.6627 : ℝ), 39.0458) ((-81.3792 : ℝ), 28.4312) 6371 := by
  refine ⟨?_, ?_, ?_⟩
  · show Geo.calculateIntermediatePoint _ _ ((0:ℝ) / 120) = _
    rw [show (0:ℝ) / 120 = 0 from by norm_num]
    exact Geo.interp_zero_coords _ _ cvg_mco_dot_gt cvg_mco_dot_lt
      cvg_lat_mem cvg_lon_mem
  · show Geo.calculateIntermediatePoint _ _ ((120:ℝ) / 120) = _
    rw [show (120:ℝ) / 120 = 1 from by norm_num]
    exact Geo.interp_one_coords _ _ cvg_mco_dot_gt cvg_mco_dot_lt
      mco_lat_mem mco_lon_mem
  · show Geo.calculateGreatCircleDistance _
      (Geo.calculateIntermediatePoint _ _ ((2.5:ℝ) / 120)) 6371 = _
    exact Geo.dist_interp_frac _ _ _ (by norm_num) (by norm_num)
      cvg_mco_dot_gt cvg_mco_dot_lt 6371


namespace MapReady

/-- If no scheduled poll sees all flags true, the loop runs out of
polls and the 30 s rejection fires. -/
lemma checkMapAux_fail (env : ℕ → Checks) :
    ∀ n t, (∀ k, k < n → allReady (env (t + pollIntervalMs * k)) = false) →
      checkMapAux env n t = Except.error timeoutMs := by
  intro n
  induction n with
  | zero => intro t _; rfl
  | succ n ih =>
    intro t h
    have h0 := h 0 (Nat.succ_pos n)
    rw [Nat.mul_zero, Nat.add_zero] at h0
    simp only [checkMapAux, h0, Bool.false_eq_true, if_false]
    apply ih
    intro k hk
    have h1 := h (k + 1) (Nat.succ_lt_succ hk)
    have harith : t + pollIntervalMs * (k + 1) =
        t + pollIntervalMs + pollIntervalMs * k := by ring
    rw [harith] at h1
    exact h1

/-- If some scheduled poll sees all flags true, the promise resolves at
a poll that saw all flags true simultaneously. -/
lemma checkMapAux_ok (env : ℕ → Checks) :
    ∀ n t, (∃ k, k < n ∧ allReady (env (t + pollIntervalMs * k)) = true) →
      ∃ u, checkMapAux env n t = Except.ok u ∧ allReady (env u) = true := by
  intro n
  induction n with
  | zero =>
    intro t h
    obtain ⟨k, hk, _⟩ := h
    exact absurd hk (Nat.not_lt_zero k)
  | succ n ih =>
    intro t h
    obtain ⟨k, hk, hready⟩ := h
    by_cases h0 : allReady (env t) = true
    · refine ⟨t, ?_, h0⟩
      simp only [checkMapAux, h0, if_true]
    · have hkne : k ≠ 0 := by
        rintro rfl
        rw [Nat.mul_zero, Nat.add_zero] at hready
        exact h0 hready
      obtain ⟨j, rfl⟩ := Nat.exists_eq_succ_of_ne_zero hkne
      have hstep : ∃ u, checkMapAux env n (t + pollIntervalMs) = Except.ok u ∧
          allReady (env u) = true := by
        apply ih
        refine ⟨j, Nat.lt_of_succ_lt_succ hk, ?_⟩
        have harith : t + pollIntervalMs * (j + 1) =
            t + pollIntervalMs + pollIntervalMs * j := by ring
        rw [harith] at hready
        exact hready
      obtain ⟨u, hu, hru⟩ := hstep
      refine ⟨u, ?_, hru⟩
      simp only [checkMapAux]
      rw [if_neg h0]
      exact hu

end MapReady

/-- C3: for the readiness gate of `waitForMapReady` (poll every
1000 ms, 30 s rejection timer): (a) if all five readiness conditions
hold simultaneously at some scheduled poll (times `1000·k`, `k < 30`),
the wait resolves successfully, at a poll where the whole conjunction
held; (b) if the conjunction holds at no single poll — regardless of
how many conjuncts hold at different polls — the wait fails with the
timeout rejection at exactly 30000 ms, not before.  Partial
satisfaction across distinct polls therefore never counts. -/
theorem c3_readiness_gate_polls (env : ℕ → MapReady.Checks) :
    ((∃ k, k < 30 ∧ MapReady.allReady (env (1000 * k)) = true) →
      ∃ t, MapReady.waitForMapReady env = Except.ok t ∧
        MapReady.allReady (env t) = true) ∧
    ((∀ k, k < 30 → MapReady.allReady (env (1000 * k)) = false) →
      MapReady.waitForMapReady env = Except.error 30000) := by
  constructor
  · intro h
    obtain ⟨k, hk, hr⟩ := h
    apply MapReady.checkMapAux_ok
    refine ⟨k, hk, ?_⟩
    have harith : 0 + MapReady.pollIntervalMs * k = 1000 * k := by
      simp [MapReady.pollIntervalMs]
    rw [harith]
    exact hr
  · intro h
    apply MapReady.checkMapAux_fail
    intro k hk
    have harith : 0 + MapReady.pollIntervalMs * k = 1000 * k := by
      simp [MapReady.pollIntervalMs]
    rw [harith]
    exact h k hk

/-- Witness for C3: with everything but map content ready from the
start and content appearing at 3000 ms, the wait resolves; with the
`flightPathMap`/map-instance flags alternating (each conjunct true at
many polls, the conjunction never), the wait rejects at exactly
30000 ms. -/
theorem c3_witness :
    (∃ t, MapReady.waitForMapReady MapReady.readyAfterThreePolls =
        Except.ok t ∧
        MapReady.allReady (MapReady.readyAfterThreePolls t) = true) ∧
      MapReady.waitForMapReady MapReady.alternatingChecks =
        Except.error 30000 :=
  ⟨(c3_readiness_gate_polls MapReady.readyAfterThreePolls).1
      ⟨3, by norm_num, by decide⟩,
    (c3_readiness_gate_polls MapReady.alternatingChecks).2 (by decide)⟩

namespace Capture

lemma runAttempt_failLaunch_eval (e n : ℕ) (s : St) :
    runAttempt (AttemptSpec.failLaunch e) n s =
      ({ s with trace := s.trace ++ [Ev.attemptStart n] }, Except.error e) :=
  rfl

lemma runAttempt_failNewPage_eval (e n : ℕ) (s : St) :
    runAttempt (AttemptSpec.failNewPage e) n s =
      ({ s with
          nextId := s.nextId + 1
          browser := some s.nextId
          trace := s.trace ++ [Ev.attemptStart n, Ev.openBrowser s.nextId] },
       Except.error e) := by
  simp [runAttempt, initBrowser]

lemma runAttempt_failNavigate_eval (e n : ℕ) (s : St) :
    runAttempt (AttemptSpec.failNavigate e) n s =
      ({ s with
          nextId := s.nextId + 2
          browser := some s.nextId
          page := some (s.nextId + 1)
          viewportW := 1080
          viewportH := 1920
          trace := s.trace ++ [Ev.attemptStart n, Ev.openBrowser s.nextId,
            Ev.openPage (s.nextId + 1)] },
       Except.error e) := by
  simp [runAttempt, initBrowser, navigateToMap]

lemma runAttempt_failOverview_eval (e n : ℕ) (s : St) :
    runAttempt (AttemptSpec.failOverview e) n s =
      ({ s with
          nextId := s.nextId + 2
          browser := some s.nextId
          page := some (s.nextId + 1)
          viewportW := 1080
          viewportH := 1920
          trace := s.trace ++ [Ev.attemptStart n, Ev.openBrowser s.nextId,
            Ev.openPage (s.nextId + 1), Ev.navigate] },
       Except.error e) := by
  simp [runAttempt, initBrowser, navigateToMap, captureOverview]

lemma runAttempt_failZoom_eval (e n : ℕ) (s : St) :
    runAttempt (AttemptSpec.failZoom e) n s =
      ({ s with
          nextId := s.nextId + 2
          browser := some s.nextId
          page := some (s.nextId + 1)
          viewportW := 1080
          viewportH := 1920
          files := s.files ++ [screenshotPath "overview.png"]
          trace := s.trace ++ [Ev.attemptStart n, Ev.openBrowser s.nextId,
            Ev.openPage (s.nextId + 1), Ev.navigate, Ev.ensureDir,
            Ev.write (screenshotPath "overview.png") 1080 1920] },
       Except.error e) := by
  simp [runAttempt, initBrowser, navigateToMap, captureOverview,
    captureZoom, ensureScreenshotDirectory]

lemma runAttempt_ok_eval (n : ℕ) (s : St) :
    runAttempt AttemptSpec.ok n s =
      ({ s with
          nextId := s.nextId + 2
          browser := some s.nextId
          page := some (s.nextId + 1)
          viewportW := 1080
          viewportH := 1920
          files := s.files ++ [screenshotPath "overview.png",
            screenshotPath "zoom.png"]
          trace := s.trace ++ [Ev.attemptStart n, Ev.openBrowser s.nextId,
            Ev.openPage (s.nextId + 1), Ev.navigate, Ev.ensureDir,
            Ev.write (screenshotPath "overview.png") 1080 1920, Ev.ensureDir,
            Ev.write (screenshotPath "zoom.png") 1080 1920] },
       Except.ok ⟨screenshotPath "overview.png", screenshotPath "zoom.png"⟩) := by
  simp [runAttempt, initBrowser, navigateToMap, captureOverview,
    captureZoom, ensureScreenshotDirectory]

end Capture

namespace Capture

lemma cleanup_clean {s : St} (hb : s.browser = none) (hp : s.page = none) :
    cleanup s = s := by
  simp [cleanup, hb, hp]

/-- One attempt followed by the `cleanup` that capture.js always
eventually runs on it (between retries, or in `main`'s `finally`):
starting from a state with no live handles, it ends with no live
handles, and it opens and closes exactly one close per open — the
handles numbered from `s.nextId` up to the new counter value. -/
lemma seg_spec (a : AttemptSpec) (n : ℕ) (s : St) (hb : s.browser = none)
    (hp : s.page = none) :
    (cleanup (runAttempt a n s).1).browser = none ∧
    (cleanup (runAttempt a n s).1).page = none ∧
    s.nextId ≤ (cleanup (runAttempt a n s).1).nextId ∧
    ∀ id,
      (cleanup (runAttempt a n s).1).trace.countP (opensOf id) =
        s.trace.countP (opensOf id) +
          (if s.nextId ≤ id ∧ id < (cleanup (runAttempt a n s).1).nextId
            then 1 else 0) ∧
      (cleanup (runAttempt a n s).1).trace.countP (closesOf id) =
        s.trace.countP (closesOf id) +
          (if s.nextId ≤ id ∧ id < (cleanup (runAttempt a n s).1).nextId
            then 1 else 0) := by
  cases a with
  | failLaunch e =>
    rw [runAttempt_failLaunch_eval]
    simp only [cleanup, hb, hp]
    refine ⟨by simp [hb], by simp [hp], by simp, fun id => ⟨?_, ?_⟩⟩ <;>
      simp [List.countP_append, List.countP_cons, opensOf, closesOf] <;>
      split_ifs <;> omega
  | failNewPage e =>
    rw [runAttempt_failNewPage_eval]
    simp only [cleanup, hb, hp]
    refine ⟨by simp, by simp [hp], by simp, fun id => ⟨?_, ?_⟩⟩ <;>
      simp [List.countP_append, List.countP_cons, opensOf, closesOf] <;>
      split_ifs <;> omega
  | failNavigate e =>
    rw [runAttempt_failNavigate_eval]
    simp only [cleanup]
    refine ⟨by simp, by simp, by simp, fun id => ⟨?_, ?_⟩⟩ <;>
      simp [List.countP_append, List.countP_cons, opensOf, closesOf] <;>
      split_ifs <;> omega
  | failOverview e =>
    rw [runAttempt_failOverview_eval]
    simp only [cleanup]
    refine ⟨by simp, by simp, by simp, fun id => ⟨?_, ?_⟩⟩ <;>
      simp [List.countP_append, List.countP_cons, opensOf, closesOf] <;>
      split_ifs <;> omega
  | failZoom e =>
    rw [runAttempt_failZoom_eval]
    simp only [cleanup]
    refine ⟨by simp, by simp, by simp, fun id => ⟨?_, ?_⟩⟩ <;>
      simp [List.countP_append, List.countP_cons, opensOf, closesOf] <;>
      split_ifs <;> omega
  | ok =>
    rw [runAttempt_ok_eval]
    simp only [cleanup]
    refine ⟨by simp, by simp, by simp, fun id => ⟨?_, ?_⟩⟩ <;>
      simp [List.countP_append, List.countP_cons, opensOf, closesOf] <;>
      split_ifs <;> omega

end Capture

namespace Capture

/-- The retry loop followed by the final `cleanup` of `main`'s
`finally`: from a state with no live handles it ends with no live
handles, and every handle id in the consumed id-range is opened exactly
once and closed exactly once. -/
lemma loop_spec (specs : ℕ → AttemptSpec) :
    ∀ fuel retries s, s.browser = none → s.page = none →
    (cleanup (captureLoop specs fuel retries s).1).browser = none ∧
    (cleanup (captureLoop specs fuel retries s).1).page = none ∧
    s.nextId ≤ (cleanup (captureLoop specs fuel retries s).1).nextId ∧
    ∀ id,
      (cleanup (captureLoop specs fuel retries s).1).trace.countP
          (opensOf id) =
        s.trace.countP (opensOf id) +
          (if s.nextId ≤ id ∧
              id < (cleanup (captureLoop specs fuel retries s).1).nextId
            then 1 else 0) ∧
      (cleanup (captureLoop specs fuel retries s).1).trace.countP
          (closesOf id) =
        s.trace.countP (closesOf id) +
          (if s.nextId ≤ id ∧
              id < (cleanup (captureLoop specs fuel retries s).1).nextId
            then 1 else 0) := by
  intro fuel
  induction fuel with
  | zero =>
    intro retries s hb hp
    have hcl : cleanup ((s, (none : Option (Except ℕ CaptureResults)))).1 =
        s := by
      show cleanup s = s
      exact cleanup_clean hb hp
    simp only [captureLoop, hcl]
    refine ⟨hb, hp, le_refl _, fun id => ?_⟩
    constructor
    · split_ifs <;> omega
    · split_ifs <;> omega
  | succ fuel ih =>
    intro retries s hb hp
    by_cases hr : retries < maxRetries
    · rcases hA : runAttempt (specs retries) (retries + 1) s with ⟨s1, r1⟩
      have hseg := seg_spec (specs retries) (retries + 1) s hb hp
      simp only [hA] at hseg
      obtain ⟨hb1, hp1, hn1, hcount1⟩ := hseg
      cases r1 with
      | ok v =>
        have hloop : captureLoop specs (fuel + 1) retries s =
            (s1, some (Except.ok v)) := by
          simp only [captureLoop, if_pos hr, hA]
        rw [hloop]
        exact ⟨hb1, hp1, hn1, hcount1⟩
      | error e =>
        by_cases hr2 : retries + 1 < maxRetries
        · have hloop : captureLoop specs (fuel + 1) retries s =
              captureLoop specs fuel (retries + 1) (cleanup s1) := by
            simp only [captureLoop, if_pos hr, hA, if_pos hr2]
          rw [hloop]
          have hrec := ih (retries + 1) (cleanup s1) hb1 hp1
          obtain ⟨hb2, hp2, hn2, hcount2⟩ := hrec
          refine ⟨hb2, hp2, le_trans hn1 hn2, fun id => ?_⟩
          obtain ⟨ho1, hc1⟩ := hcount1 id
          obtain ⟨ho2, hc2⟩ := hcount2 id
          constructor
          · rw [ho2, ho1]
            split_ifs <;> omega
          · rw [hc2, hc1]
            split_ifs <;> omega
        · have hloop : captureLoop specs (fuel + 1) retries s =
              (s1, some (Except.error e)) := by
            simp only [captureLoop, if_pos hr, hA, if_neg hr2]
          rw [hloop]
          exact ⟨hb1, hp1, hn1, hcount1⟩
    · have hcl : cleanup ((s, (none : Option (Except ℕ CaptureResults)))).1 =
          s := by
        show cleanup s = s
        exact cleanup_clean hb hp
      have hloop : captureLoop specs (fuel + 1) retries s = (s, none) := by
        simp only [captureLoop, if_neg hr]
      rw [hloop, hcl]
      refine ⟨hb, hp, le_refl _, fun id => ?_⟩
      constructor
      · split_ifs <;> omega
      · split_ifs <;> omega

end Capture

/-- C8: for every behaviour of the three attempts (any pattern of
launch, new-page, navigation, overview or zoom failures, or success),
the full `main` run of capture.js — retry loop plus the `finally`
cleanup — closes every browser and page handle it opened exactly once:
each handle id has equally many close and open events, and is opened at
most once (so it is also never closed twice).  Release is guaranteed on
all exit paths because `cleanup` runs between retries, and `main`'s
`finally` covers both the success return and the final rethrow; no
double release happens because `cleanup` nulls `this.page` and
`this.browser` after closing them. -/
theorem c8_session_release_balanced (specs : ℕ → Capture.AttemptSpec)
    (id : ℕ) :
    (Capture.mainRun specs).1.trace.countP (Capture.closesOf id) =
      (Capture.mainRun specs).1.trace.countP (Capture.opensOf id) ∧
    (Capture.mainRun specs).1.trace.countP (Capture.opensOf id) ≤ 1 := by
  have h := Capture.loop_spec specs Capture.maxRetries 0 Capture.initSt
    rfl rfl
  obtain ⟨_, _, _, hcount⟩ := h
  obtain ⟨ho, hc⟩ := hcount id
  simp only [show Capture.initSt.trace = [] from rfl,
    show Capture.initSt.nextId = 0 from rfl, List.countP_nil] at ho hc
  have hmain : (Capture.mainRun specs).1 =
      Capture.cleanup
        (Capture.captureLoop specs Capture.maxRetries 0 Capture.initSt).1 :=
    rfl
  rw [hmain, ho, hc]
  constructor
  · rfl
  · split_ifs <;> omega

namespace Capture

/-- Any failing attempt makes `captureAllScreenshots`'s loop body
rethrow that step's error and produce no results value. -/
lemma runAttempt_fail_result (a : AttemptSpec) (n : ℕ) (s : St)
    (h : a.isFailure = true) :
    (runAttempt a n s).2 = Except.error a.errOf := by
  cases a
  case ok => simp [AttemptSpec.isFailure] at h
  all_goals rfl

end Capture

/-- C1 (amended): a successful run of the orchestrator sequence returns
exactly the two named results `overview` and `zoom`, and its event
trace navigates once and then writes `overview.png` strictly before the
zoom capture's directory check and write; any failing run returns zero
CaptureResults (it rethrows the failing step's error).  However, the
original claim's "retains no partial artifact" is false: a run that
fails at the zoom step keeps the already-written `overview.png` on
disk (see the counterexample) — nothing deletes it. -/
theorem c1_single_run_artifacts :
    (∀ (n : ℕ) (s : Capture.St),
      (Capture.runAttempt Capture.AttemptSpec.ok n s).2 =
        Except.ok ⟨Capture.screenshotPath "overview.png",
          Capture.screenshotPath "zoom.png"⟩ ∧
      (Capture.runAttempt Capture.AttemptSpec.ok n s).1.trace =
        s.trace ++ [Capture.Ev.attemptStart n,
          Capture.Ev.openBrowser s.nextId,
          Capture.Ev.openPage (s.nextId + 1), Capture.Ev.navigate,
          Capture.Ev.ensureDir,
          Capture.Ev.write (Capture.screenshotPath "overview.png") 1080 1920,
          Capture.Ev.ensureDir,
          Capture.Ev.write (Capture.screenshotPath "zoom.png") 1080 1920]) ∧
    (∀ (a : Capture.AttemptSpec) (n : ℕ) (s : Capture.St),
      a.isFailure = true →
      (Capture.runAttempt a n s).2 = Except.error a.errOf) ∧
    (∀ (e n : ℕ) (s : Capture.St),
      (Capture.runAttempt (Capture.AttemptSpec.failZoom e) n s).1.files =
        s.files ++ [Capture.screenshotPath "overview.png"]) := by
  refine ⟨fun n s => ?_, fun a n s h => Capture.runAttempt_fail_result a n s h,
    fun e n s => ?_⟩
  · rw [Capture.runAttempt_ok_eval]
    exact ⟨rfl, rfl⟩
  · rw [Capture.runAttempt_failZoom_eval]

/-- Counterexample for C1 as stated: an attempt failing at the zoom
step returns zero CaptureResults, yet the `overview.png` artifact
written earlier in the same failed run remains on disk — the run is not
all-or-nothing at the filesystem level. -/
theorem c1_counterexample :
    (Capture.runAttempt (Capture.AttemptSpec.failZoom 5) 1
        Capture.initSt).2 = Except.error 5 ∧
    (Capture.runAttempt (Capture.AttemptSpec.failZoom 5) 1
        Capture.initSt).1.files = [Capture.screenshotPath "overview.png"] ∧
    [Capture.screenshotPath "overview.png"] ≠ ([] : List String) := by
  refine ⟨rfl, rfl, by simp⟩

/-- Witness for C1 at concrete attempts from the initial state. -/
theorem c1_witness :
    ((Capture.runAttempt Capture.AttemptSpec.ok 1 Capture.initSt).2 =
        Except.ok ⟨Capture.screenshotPath "overview.png",
          Capture.screenshotPath "zoom.png"⟩ ∧
      (Capture.runAttempt Capture.AttemptSpec.ok 1 Capture.initSt).1.trace =
        Capture.initSt.trace ++ [Capture.Ev.attemptStart 1,
          Capture.Ev.openBrowser Capture.initSt.nextId,
          Capture.Ev.openPage (Capture.initSt.nextId + 1),
          Capture.Ev.navigate, Capture.Ev.ensureDir,
          Capture.Ev.write (Capture.screenshotPath "overview.png") 1080 1920,
          Capture.Ev.ensureDir,
          Capture.Ev.write (Capture.screenshotPath "zoom.png") 1080 1920]) ∧
    ((Capture.AttemptSpec.failNavigate 7).isFailure = true ∧
      (Capture.runAttempt (Capture.AttemptSpec.failNavigate 7) 1
        Capture.initSt).2 =
        Except.error (Capture.AttemptSpec.failNavigate 7).errOf) ∧
    (Capture.runAttempt (Capture.AttemptSpec.failZoom 5) 2
        Capture.initSt).1.files =
      Capture.initSt.files ++ [Capture.screenshotPath "overview.png"] :=
  ⟨c1_single_run_artifacts.1 1 Capture.initSt,
    ⟨rfl, c1_single_run_artifacts.2.1 (Capture.AttemptSpec.failNavigate 7) 1
      Capture.initSt rfl⟩,
    c1_single_run_artifacts.2.2 5 2 Capture.initSt⟩

namespace Capture

lemma runAttempt_attempts (a : AttemptSpec) (n : ℕ) (s : St) :
    attemptCount (runAttempt a n s).1.trace = attemptCount s.trace + 1 := by
  cases a <;>
    simp [runAttempt, initBrowser, navigateToMap, captureOverview,
      captureZoom, ensureScreenshotDirectory, attemptCount,
      List.countP_append, List.countP_cons, isAttemptEv]

lemma cleanup_attempts (s : St) :
    attemptCount (cleanup s).trace = attemptCount s.trace := by
  rcases hp : s.page with _ | p <;> rcases hb : s.browser with _ | b <;>
    simp [cleanup, hp, hb, attemptCount, List.countP_append,
      List.countP_cons, isAttemptEv]

lemma captureLoop_fail_step (specs : ℕ → AttemptSpec) (fuel retries : ℕ)
    (s : St) (hr : retries < maxRetries) (hr2 : retries + 1 < maxRetries)
    (hf : (specs retries).isFailure = true) :
    captureLoop specs (fuel + 1) retries s =
      captureLoop specs fuel (retries + 1)
        (cleanup (runAttempt (specs retries) (retries + 1) s).1) := by
  rcases hA : runAttempt (specs retries) (retries + 1) s with ⟨s1, r1⟩
  have hres := runAttempt_fail_result (specs retries) (retries + 1) s hf
  rw [hA] at hres
  simp only at hres
  subst hres
  simp only [captureLoop, if_pos hr, hA, if_pos hr2]

lemma captureLoop_fail_last (specs : ℕ → AttemptSpec) (fuel retries : ℕ)
    (s : St) (hr : retries < maxRetries)
    (hr2 : ¬ retries + 1 < maxRetries)
    (hf : (specs retries).isFailure = true) :
    captureLoop specs (fuel + 1) retries s =
      ((runAttempt (specs retries) (retries + 1) s).1,
        some (Except.error ((specs retries).errOf))) := by
  rcases hA : runAttempt (specs retries) (retries + 1) s with ⟨s1, r1⟩
  have hres := runAttempt_fail_result (specs retries) (retries + 1) s hf
  rw [hA] at hres
  simp only at hres
  subst hres
  simp only [captureLoop, if_pos hr, hA, if_neg hr2]

lemma captureLoop_ok_step (specs : ℕ → AttemptSpec) (fuel retries : ℕ)
    (s : St) (hr : retries < maxRetries)
    (hok : specs retries = AttemptSpec.ok) :
    captureLoop specs (fuel + 1) retries s =
      ((runAttempt (specs retries) (retries + 1) s).1,
        some (Except.ok ⟨screenshotPath "overview.png",
          screenshotPath "zoom.png"⟩)) := by
  rcases hA : runAttempt (specs retries) (retries + 1) s with ⟨s1, r1⟩
  have hA2 := hA
  rw [hok] at hA2
  have h := runAttempt_ok_eval (retries + 1) s
  rw [hA2] at h
  have hres := congrArg Prod.snd h
  simp only at hres
  subst hres
  simp only [captureLoop, if_pos hr, hA]

/-- capture.js with three failing attempts: the sequence runs exactly
three times and the error finally rethrown is the last attempt's. -/
lemma captureAll_allFail (specs : ℕ → AttemptSpec) (s : St)
    (h : ∀ i, i < 3 → (specs i).isFailure = true) :
    (captureAllScreenshots specs s).2 =
      some (Except.error ((specs 2).errOf)) ∧
    attemptCount (captureAllScreenshots specs s).1.trace =
      attemptCount s.trace + 3 := by
  have h0 := h 0 (by norm_num)
  have h1 := h 1 (by norm_num)
  have h2 := h 2 (by norm_num)
  have e1 : captureAllScreenshots specs s =
      captureLoop specs 2 1 (cleanup (runAttempt (specs 0) 1 s).1) := by
    show captureLoop specs (2 + 1) 0 s = _
    exact captureLoop_fail_step specs 2 0 s (by norm_num [maxRetries])
      (by norm_num [maxRetries]) h0
  have e2 : captureLoop specs 2 1 (cleanup (runAttempt (specs 0) 1 s).1) =
      captureLoop specs 1 2 (cleanup (runAttempt (specs 1) 2
        (cleanup (runAttempt (specs 0) 1 s).1)).1) := by
    show captureLoop specs (1 + 1) 1 _ = _
    exact captureLoop_fail_step specs 1 1 _ (by norm_num [maxRetries])
      (by norm_num [maxRetries]) h1
  have e3 : captureLoop specs 1 2 (cleanup (runAttempt (specs 1) 2
        (cleanup (runAttempt (specs 0) 1 s).1)).1) =
      ((runAttempt (specs 2) 3 (cleanup (runAttempt (specs 1) 2
        (cleanup (runAttempt (specs 0) 1 s).1)).1)).1,
        some (Except.error ((specs 2).errOf))) := by
    show captureLoop specs (0 + 1) 2 _ = _
    exact captureLoop_fail_last specs 0 2 _ (by norm_num [maxRetries])
      (by norm_num [maxRetries]) h2
  rw [e1, e2, e3]
  refine ⟨rfl, ?_⟩
  simp [runAttempt_attempts, cleanup_attempts]

/-- capture.js when the first attempt fails and the second succeeds:
the sequence runs exactly twice and the results are returned. -/
lemma captureAll_okAtSecond (specs : ℕ → AttemptSpec) (s : St)
    (h0 : (specs 0).isFailure = true) (h1 : specs 1 = AttemptSpec.ok) :
    (captureAllScreenshots specs s).2 =
      some (Except.ok ⟨screenshotPath "overview.png",
        screenshotPath "zoom.png"⟩) ∧
    attemptCount (captureAllScreenshots specs s).1.trace =
      attemptCount s.trace + 2 := by
  have e1 : captureAllScreenshots specs s =
      captureLoop specs 2 1 (cleanup (runAttempt (specs 0) 1 s).1) := by
    show captureLoop specs (2 + 1) 0 s = _
    exact captureLoop_fail_step specs 2 0 s (by norm_num [maxRetries])
      (by norm_num [maxRetries]) h0
  have e2 : captureLoop specs 2 1 (cleanup (runAttempt (specs 0) 1 s).1) =
      ((runAttempt (specs 1) 2 (cleanup (runAttempt (specs 0) 1 s).1)).1,
        some (Except.ok ⟨screenshotPath "overview.png",
          screenshotPath "zoom.png"⟩)) := by
    show captureLoop specs (1 + 1) 1 _ = _
    exact captureLoop_ok_step specs 1 1 _ (by norm_num [maxRetries]) h1
  rw [e1, e2]
  refine ⟨rfl, ?_⟩
  simp [runAttempt_attempts, cleanup_attempts]

end Capture

namespace CaptureSimple

open Capture

lemma simpleRunAttempt_fail_result (a : AttemptSpec) (n : ℕ) (s : St)
    (h : a.isFailure = true) :
    (CaptureSimple.runAttempt a n s).2 = Except.error a.errOf := by
  cases a
  case ok => simp [AttemptSpec.isFailure] at h
  all_goals rfl

lemma simpleRunAttempt_attempts (a : AttemptSpec) (n : ℕ) (s : St) :
    attemptCount (CaptureSimple.runAttempt a n s).1.trace =
      attemptCount s.trace + 1 := by
  cases a <;>
    simp [CaptureSimple.runAttempt, initBrowser, navigateToMap,
      CaptureSimple.captureOverview, CaptureSimple.captureZoom,
      ensureScreenshotDirectory, attemptCount, List.countP_append,
      List.countP_cons, isAttemptEv]

lemma simpleCleanup_attempts (s : St) :
    attemptCount (CaptureSimple.cleanup s).trace = attemptCount s.trace := by
  rcases hb : s.browser with _ | b <;>
    simp [CaptureSimple.cleanup, hb, attemptCount, List.countP_append,
      List.countP_cons, isAttemptEv]

lemma simpleCaptureLoop_fail_step (specs : ℕ → AttemptSpec) (fuel retries : ℕ)
    (s : St) (hr : retries < maxRetries) (hr2 : retries + 1 < maxRetries)
    (hf : (specs retries).isFailure = true) :
    CaptureSimple.captureLoop specs (fuel + 1) retries s =
      CaptureSimple.captureLoop specs fuel (retries + 1)
        (CaptureSimple.cleanup
          (CaptureSimple.runAttempt (specs retries) (retries + 1) s).1) := by
  rcases hA : CaptureSimple.runAttempt (specs retries) (retries + 1) s
    with ⟨s1, r1⟩
  have hres := simpleRunAttempt_fail_result (specs retries) (retries + 1) s hf
  rw [hA] at hres
  simp only at hres
  subst hres
  simp only [CaptureSimple.captureLoop, if_pos hr, hA, if_pos hr2]

lemma simpleCaptureLoop_fail_last (specs : ℕ → AttemptSpec) (fuel retries : ℕ)
    (s : St) (hr : retries < maxRetries)
    (hr2 : ¬ retries + 1 < maxRetries)
    (hf : (specs retries).isFailure = true) :
    CaptureSimple.captureLoop specs (fuel + 1) retries s =
      ((CaptureSimple.runAttempt (specs retries) (retries + 1) s).1,
        Except.error SimpleErr.allAttemptsFailed) := by
  rcases hA : CaptureSimple.runAttempt (specs retries) (retries + 1) s
    with ⟨s1, r1⟩
  have hres := simpleRunAttempt_fail_result (specs retries) (retries + 1) s hf
  rw [hA] at hres
  simp only at hres
  subst hres
  simp only [CaptureSimple.captureLoop, if_pos hr, hA, if_neg hr2]

/-- capture-simple.js after three failing attempts: the sequence ran
exactly three times, and the error finally thrown is the generic
'All screenshot capture attempts failed' — not the last attempt's
underlying error. -/
lemma simpleAll_allFail (specs : ℕ → AttemptSpec) (s : St)
    (h : ∀ i, i < 3 → (specs i).isFailure = true) :
    (CaptureSimple.captureAllScreenshots specs s).2 =
      Except.error SimpleErr.allAttemptsFailed ∧
    attemptCount (CaptureSimple.captureAllScreenshots specs s).1.trace =
      attemptCount s.trace + 3 := by
  have h0 := h 0 (by norm_num)
  have h1 := h 1 (by norm_num)
  have h2 := h 2 (by norm_num)
  have e1 : CaptureSimple.captureAllScreenshots specs s =
      CaptureSimple.captureLoop specs 2 1
        (CaptureSimple.cleanup (CaptureSimple.runAttempt (specs 0) 1 s).1) := by
    show CaptureSimple.captureLoop specs (2 + 1) 0 s = _
    exact simpleCaptureLoop_fail_step specs 2 0 s (by norm_num [maxRetries])
      (by norm_num [maxRetries]) h0
  have e2 : CaptureSimple.captureLoop specs 2 1
        (CaptureSimple.cleanup (CaptureSimple.runAttempt (specs 0) 1 s).1) =
      CaptureSimple.captureLoop specs 1 2
        (CaptureSimple.cleanup (CaptureSimple.runAttempt (specs 1) 2
          (CaptureSimple.cleanup
            (CaptureSimple.runAttempt (specs 0) 1 s).1)).1) := by
    show CaptureSimple.captureLoop specs (1 + 1) 1 _ = _
    exact simpleCaptureLoop_fail_step specs 1 1 _ (by norm_num [maxRetries])
      (by norm_num [maxRetries]) h1
  have e3 : CaptureSimple.captureLoop specs 1 2
        (CaptureSimple.cleanup (CaptureSimple.runAttempt (specs 1) 2
          (CaptureSimple.cleanup
            (CaptureSimple.runAttempt (specs 0) 1 s).1)).1) =
      ((CaptureSimple.runAttempt (specs 2) 3
          (CaptureSimple.cleanup (CaptureSimple.runAttempt (specs 1) 2
            (CaptureSimple.cleanup
              (CaptureSimple.runAttempt (specs 0) 1 s).1)).1)).1,
        Except.error SimpleErr.allAttemptsFailed) := by
    show CaptureSimple.captureLoop specs (0 + 1) 2 _ = _
    exact simpleCaptureLoop_fail_last specs 0 2 _ (by norm_num [maxRetries])
      (by norm_num [maxRetries]) h2
  rw [e1, e2, e3]
  refine ⟨rfl, ?_⟩
  simp [simpleRunAttempt_attempts, simpleCleanup_attempts]

end CaptureSimple

/-- C2 (amended): for capture.js's `captureAllScreenshots`
(maxRetries = 3): if every attempt fails, the orchestrator sequence is
invoked exactly three times and the error finally raised is the last
attempt's underlying error; if the first attempt fails and the second
succeeds, the sequence is invoked exactly twice and the results are
returned immediately.  For capture-simple.js's `captureAllScreenshots`,
the sequence is likewise invoked exactly three times when every attempt
fails, but — contrary to the original claim — the error finally raised
is the generic 'All screenshot capture attempts failed' replacement,
not the last underlying error (see the counterexample). -/
theorem c2_retry_policy_error_propagation :
    (∀ (specs : ℕ → Capture.AttemptSpec) (s : Capture.St),
      (∀ i, i < 3 → (specs i).isFailure = true) →
      (Capture.captureAllScreenshots specs s).2 =
        some (Except.error ((specs 2).errOf)) ∧
      Capture.attemptCount (Capture.captureAllScreenshots specs s).1.trace =
        Capture.attemptCount s.trace + 3) ∧
    (∀ (specs : ℕ → Capture.AttemptSpec) (s : Capture.St),
      (specs 0).isFailure = true → specs 1 = Capture.AttemptSpec.ok →
      (Capture.captureAllScreenshots specs s).2 =
        some (Except.ok ⟨Capture.screenshotPath "overview.png",
          Capture.screenshotPath "zoom.png"⟩) ∧
      Capture.attemptCount (Capture.captureAllScreenshots specs s).1.trace =
        Capture.attemptCount s.trace + 2) ∧
    (∀ (specs : ℕ → Capture.AttemptSpec) (s : Capture.St),
      (∀ i, i < 3 → (specs i).isFailure = true) →
      (CaptureSimple.captureAllScreenshots specs s).2 =
        Except.error CaptureSimple.SimpleErr.allAttemptsFailed ∧
      Capture.attemptCount
          (CaptureSimple.captureAllScreenshots specs s).1.trace =
        Capture.attemptCount s.trace + 3) :=
  ⟨fun specs s h => Capture.captureAll_allFail specs s h,
    fun specs s h0 h1 => Capture.captureAll_okAtSecond specs s h0 h1,
    fun specs s h => CaptureSimple.simpleAll_allFail specs s h⟩

/-- Counterexample for C2 as stated: capture-simple.js's retry wrapper,
with every attempt failing with underlying error `7`, finally raises the
generic 'all attempts failed' error, which is not the last underlying
error. -/
theorem c2_counterexample :
    (CaptureSimple.captureAllScreenshots
        (fun _ => Capture.AttemptSpec.failNavigate 7) Capture.initSt).2 =
      Except.error CaptureSimple.SimpleErr.allAttemptsFailed ∧
    CaptureSimple.SimpleErr.allAttemptsFailed ≠
      CaptureSimple.SimpleErr.underlying 7 :=
  ⟨(CaptureSimple.simpleAll_allFail
      (fun _ => Capture.AttemptSpec.failNavigate 7) Capture.initSt
      (fun _ _ => rfl)).1,
    by simp⟩

/-- Witness for C2 at concrete attempt behaviours from the initial
state. -/
theorem c2_witness :
    ((Capture.captureAllScreenshots
          (fun _ => Capture.AttemptSpec.failNavigate 7) Capture.initSt).2 =
        some (Except.error 7) ∧
      Capture.attemptCount (Capture.captureAllScreenshots
          (fun _ => Capture.AttemptSpec.failNavigate 7)
          Capture.initSt).1.trace = 3) ∧
    ((Capture.captureAllScreenshots
          (fun i => if i = 0 then Capture.AttemptSpec.failLaunch 3
            else Capture.AttemptSpec.ok) Capture.initSt).2 =
        some (Except.ok ⟨Capture.screenshotPath "overview.png",
          Capture.screenshotPath "zoom.png"⟩) ∧
      Capture.attemptCount (Capture.captureAllScreenshots
          (fun i => if i = 0 then Capture.AttemptSpec.failLaunch 3
            else Capture.AttemptSpec.ok) Capture.initSt).1.trace = 2) ∧
    ((CaptureSimple.captureAllScreenshots
          (fun _ => Capture.AttemptSpec.failNavigate 7) Capture.initSt).2 =
        Except.error CaptureSimple.SimpleErr.allAttemptsFailed ∧
      Capture.attemptCount (CaptureSimple.captureAllScreenshots
          (fun _ => Capture.AttemptSpec.failNavigate 7)
          Capture.initSt).1.trace = 3) :=
  ⟨c2_retry_policy_error_propagation.1
      (fun _ => Capture.AttemptSpec.failNavigate 7) Capture.initSt
      (fun _ _ => rfl),
    c2_retry_policy_error_propagation.2.1
      (fun i => if i = 0 then Capture.AttemptSpec.failLaunch 3
        else Capture.AttemptSpec.ok) Capture.initSt rfl rfl,
    c2_retry_policy_error_propagation.2.2
      (fun _ => Capture.AttemptSpec.failNavigate 7) Capture.initSt
      (fun _ _ => rfl)⟩

namespace CaptureSimple

open Capture

/-- Full event trace of a successful capture-simple.js attempt: each
capturing step hides the map UI, ensures the output directory, then
writes its PNG at the 1080×1920 viewport. -/
lemma simpleRunAttempt_ok_trace (n : ℕ) (s : St) :
    (CaptureSimple.runAttempt AttemptSpec.ok n s).1.trace =
      s.trace ++ [Ev.attemptStart n, Ev.openBrowser s.nextId,
        Ev.openPage (s.nextId + 1), Ev.navigate, Ev.hideUI, Ev.ensureDir,
        Ev.write (screenshotPath "overview.png") 1080 1920, Ev.hideUI,
        Ev.ensureDir, Ev.write (screenshotPath "zoom.png") 1080 1920] ∧
    (CaptureSimple.runAttempt AttemptSpec.ok n s).1.files =
      s.files ++ [screenshotPath "overview.png",
        screenshotPath "zoom.png"] := by
  constructor <;>
    simp [CaptureSimple.runAttempt, initBrowser, navigateToMap,
      CaptureSimple.captureOverview, CaptureSimple.captureZoom,
      ensureScreenshotDirectory]

end CaptureSimple

/-- C9 (amended): in capture-simple.js every capturing step hides the
renderer chrome (`hideMapUI`) before the screenshot, ensures the output
directory immediately before writing, and writes the PNG at the
configured 1080×1920 viewport to the path derived from the capture's
name — the success trace is exactly as listed.  In capture.js, the PNGs
are likewise written at 1080×1920 with the directory ensured first, but
— contrary to the original claim — no UI-hiding step exists at all (see
the counterexample). -/
theorem c9_capturing_step_behaviour :
    (∀ (n : ℕ) (s : Capture.St),
      (CaptureSimple.runAttempt Capture.AttemptSpec.ok n s).1.trace =
        s.trace ++ [Capture.Ev.attemptStart n,
          Capture.Ev.openBrowser s.nextId,
          Capture.Ev.openPage (s.nextId + 1), Capture.Ev.navigate,
          Capture.Ev.hideUI, Capture.Ev.ensureDir,
          Capture.Ev.write (Capture.screenshotPath "overview.png") 1080 1920,
          Capture.Ev.hideUI, Capture.Ev.ensureDir,
          Capture.Ev.write (Capture.screenshotPath "zoom.png") 1080 1920]) ∧
    (∀ (n : ℕ) (s : Capture.St),
      (Capture.runAttempt Capture.AttemptSpec.ok n s).1.trace.countP
          Capture.isHideEv =
        s.trace.countP Capture.isHideEv ∧
      (Capture.runAttempt Capture.AttemptSpec.ok n s).1.trace.countP
          Capture.isWriteEv =
        s.trace.countP Capture.isWriteEv + 2) := by
  constructor
  · intro n s
    exact (CaptureSimple.simpleRunAttempt_ok_trace n s).1
  · intro n s
    rw [Capture.runAttempt_ok_eval]
    constructor <;>
      simp [List.countP_append, List.countP_cons, Capture.isHideEv,
        Capture.isWriteEv]

/-- Counterexample for C9 as stated: a successful capture.js run takes
both screenshots (two write events) without ever hiding the renderer
chrome (zero hide events) — its capturing steps do not hide UI controls
before the screenshot. -/
theorem c9_counterexample :
    (Capture.runAttempt Capture.AttemptSpec.ok 1
        Capture.initSt).1.trace.countP Capture.isHideEv = 0 ∧
    (Capture.runAttempt Capture.AttemptSpec.ok 1
        Capture.initSt).1.trace.countP Capture.isWriteEv = 2 := by
  constructor <;> rfl
